import Mathlib

/-!
# Verification of the docker-autoheal healing core

Shallow embedding of the Python sources of the `docker-autoheal` supervisor
(`app/config/config_manager.py`, `app/monitor/monitoring_engine.py`,
`app/monitor/uptime_kuma_monitor.py`, `app/api/api.py`, `docker_client.py`)
together with proofs about the embedded operations.

Conventions used throughout:
* Python `dict` values read by key become association lists
  (`List (String × _)`) with a `lookup` helper mirroring `dict.get`.
* Wall-clock instants (`datetime.now`) are integers (seconds); callers of an
  operation pass the current instant explicitly.
* Machine I/O performed by an operation (Docker SDK calls, probe sockets,
  `fnmatch` pattern matching from the standard library) is supplied through an
  explicit environment record, so every operation stays a pure function of its
  state, its environment and its inputs.
* Side effects other than state mutation (restarting a container, sleeping,
  notifying) are returned as an explicit list of `Action`s.
-/

namespace Autoheal

/-- `d.get(k)` on a Python string-keyed dict (association list with unique
keys). -/
def lookupKey {α : Type} : List (String × α) → String → Option α
  | [], _ => none
  | p :: d, k => if p.1 == k then some p.2 else lookupKey d k

/-- `d[k] = v` on a Python dict: replace the binding in place if the key is
present, else append. -/
def setKey {α : Type} : List (String × α) → String → α → List (String × α)
  | [], k, v => [(k, v)]
  | p :: d, k, v => if p.1 == k then (k, v) :: d else p :: setKey d k v

/-- `del d[k]` on a Python dict. -/
def delKey {α : Type} (d : List (String × α)) (k : String) : List (String × α) :=
  d.filter (fun p => !(p.1 == k))

/-- Python truthiness of an optional string (`None` and `""` are falsy). -/
def truthy : Option String → Bool
  | none => false
  | some s => !(s == "")

/-- Python `l[-n:]` for an arbitrary integer `n`. -/
def pyTail {α : Type} (n : Int) (l : List α) : List α :=
  if 0 < n then l.drop (l.length - n.toNat)
  else if n = 0 then l
  else l.drop (-n).toNat

/-- Python `int(q)` on a float, modelled on rationals: truncation toward zero. -/
def pyTrunc (q : ℚ) : Int :=
  if 0 ≤ q then ⌊q⌋ else -⌊-q⌋

/-- Python `s.lower()` for the ASCII strings the runtime reports (container
states such as `"running"`, `"exited"`). -/
def pyLower (s : String) : String := String.mk (s.data.map Char.toLower)

/-! ## Configuration data model (`app/config/config_manager.py`) -/

/-- `MonitorConfig` pydantic model. -/
structure MonitorConfig where
  interval_seconds : Int := 30
  label_key : String := "autoheal"
  label_value : String := "true"
  include_all : Bool := false
deriving DecidableEq, Repr

/-- `BackoffConfig` pydantic model (`multiplier` is a Python float, embedded
as a rational). -/
structure BackoffConfig where
  enabled : Bool := true
  initial_seconds : Int := 10
  multiplier : ℚ := 2
deriving DecidableEq, Repr

/-- `RestartConfig` pydantic model. -/
structure RestartConfig where
  mode : String := "on-failure"
  cooldown_seconds : Int := 60
  max_restarts : Int := 3
  max_restarts_window_seconds : Int := 600
  backoff : BackoffConfig := {}
  respect_manual_stop : Bool := true
deriving DecidableEq, Repr

/-- `ContainersConfig` pydantic model. -/
structure ContainersConfig where
  selected : List String := []
  excluded : List String := []
  restart_counts : List (String × Int) := []
deriving DecidableEq, Repr

/-- `FiltersConfig` pydantic model. -/
structure FiltersConfig where
  whitelist_names : List String := []
  blacklist_names : List String := []
  whitelist_labels : List (List (String × String)) := []
  blacklist_labels : List (List (String × String)) := []
deriving DecidableEq, Repr

/-- `UIConfig` pydantic model. -/
structure UIConfig where
  enable : Bool := true
  listen_address : String := "0.0.0.0"
  listen_port : Int := 3131
  allow_export_json : Bool := true
  allow_import_json : Bool := true
  max_log_entries : Int := 50
deriving DecidableEq, Repr

/-- `AlertsConfig` pydantic model. -/
structure AlertsConfig where
  enabled : Bool := true
  webhook : Option String := none
  notify_on_quarantine : Bool := true
deriving DecidableEq, Repr

/-- `ObservabilityConfig` pydantic model. -/
structure ObservabilityConfig where
  prometheus_enabled : Bool := true
  metrics_port : Int := 9090
  log_format : String := "json"
  log_level : String := "INFO"
deriving DecidableEq, Repr

/-- `UptimeKumaConfig` pydantic model. -/
structure UptimeKumaConfig where
  enabled : Bool := false
  server_url : String := ""
  username : String := ""
  api_token : String := ""
  auto_restart_on_down : Bool := true
deriving DecidableEq, Repr

/-- `UptimeKumaMapping` pydantic model. -/
structure UptimeKumaMapping where
  container_id : String
  monitor_friendly_name : String
  auto_mapped : Bool := false
deriving DecidableEq, Repr

/-- `AutoHealConfig` pydantic model. -/
structure AutoHealConfig where
  monitor : MonitorConfig := {}
  containers : ContainersConfig := {}
  restart : RestartConfig := {}
  filters : FiltersConfig := {}
  ui : UIConfig := {}
  alerts : AlertsConfig := {}
  observability : ObservabilityConfig := {}
  uptime_kuma : UptimeKumaConfig := {}
  uptime_kuma_mappings : List UptimeKumaMapping := []
deriving DecidableEq, Repr

/-- `HealthCheckConfig` pydantic model (custom probe for one container). -/
structure HealthCheckConfig where
  container_id : String
  check_type : String
  interval_seconds : Int := 30
  timeout_seconds : Int := 10
  retries : Int := 3
  http_endpoint : Option String := none
  http_expected_status : Option Int := some 200
  tcp_port : Option Int := none
  exec_command : Option (List String) := none
deriving DecidableEq, Repr

/-- `AutoHealEvent` pydantic model (one entry of the event log). -/
structure AutoHealEvent where
  timestamp : Int
  container_id : String
  container_name : String
  event_type : String
  restart_count : Int
  status : String
  message : String
deriving DecidableEq, Repr

/-! ## Container inspection data (`docker_client.py`, `get_container_info`)

`get_container_info` builds a dict from `container.attrs`.  The fields the
core reads are embedded as a structure; `info_get` below reproduces the
key-by-key view of the very dict literal of lines 105-120, which is what
`dict.get` sees. -/

/-- Native health block extracted by `_get_health_status` (`None` when the
container defines no health check). -/
structure HealthInfo where
  status : String
  failing_streak : Int := 0
deriving DecidableEq, Repr

/-- The information dict returned by `DockerClientWrapper.get_container_info`. -/
structure ContainerInfo where
  id : String
  full_id : String
  name : String
  image : String := ""
  status : String := ""
  state_status : String
  state_exit_code : Option Int := none
  labels : List (String × String) := []
  health : Option HealthInfo := none
deriving DecidableEq, Repr

/-- String-valued `info.get(key)` over the dict literal built by
`get_container_info`: only the keys written there are present; any other key
(in particular `"stable_id"`) yields `None`. -/
def info_get (info : ContainerInfo) (key : String) : Option String :=
  if key == "id" then some info.id
  else if key == "full_id" then some info.full_id
  else if key == "name" then some info.name
  else if key == "image" then some info.image
  else if key == "status" then some info.status
  else none

/-! ## Stable identifier (`monitoring_engine.get_stable_identifier`) -/

/-- `MonitoringEngine.get_stable_identifier`.  Priority 1 checks *key
membership* of `monitoring.id` (`"monitoring.id" in labels`), priority 2
checks Python truthiness of both compose labels. -/
def get_stable_identifier (info : ContainerInfo) : String :=
  match lookupKey info.labels "monitoring.id" with
  | some mid => mid
  | none =>
    let compose_project := lookupKey info.labels "com.docker.compose.project"
    let compose_service := lookupKey info.labels "com.docker.compose.service"
    if truthy compose_project && truthy compose_service then
      compose_project.getD "" ++ "_" ++ compose_service.getD ""
    else info.name

/-- The stable-identifier computation repeated inline by
`_process_container_start_event`, `_scan_existing_containers` and
`update_container_selection`: unlike `get_stable_identifier` it tests
`monitoring.id` by truthiness (`if monitoring_id:`), not key membership. -/
def inline_stable_id (labels : List (String × String)) (container_name : String) :
    String :=
  let monitoring_id := lookupKey labels "monitoring.id"
  let compose_project := lookupKey labels "com.docker.compose.project"
  let compose_service := lookupKey labels "com.docker.compose.service"
  if truthy monitoring_id then monitoring_id.getD ""
  else if truthy compose_project && truthy compose_service then
    compose_project.getD "" ++ "_" ++ compose_service.getD ""
  else container_name

/-! ## Probe execution environment

`_perform_custom_health_check` dispatches on `check_type` to
`check_http_health` / `check_tcp_health` / `check_exec_health` /
`get_docker_native_health`, all of which perform socket or Docker I/O.  The
outcome of that I/O is supplied by the environment; an exception inside the
dispatch returns `False` in the source (`except: return False`), which the
environment functions may also model by returning `false` (resp. `none`). -/

structure ProbeEnv where
  /-- Result of `check_http_health container endpoint expected_status timeout`. -/
  http_ok : Option String → Option Int → Int → Bool
  /-- Result of `check_tcp_health container port timeout`. -/
  tcp_ok : Option Int → Int → Bool
  /-- Result of `check_exec_health container command`. -/
  exec_ok : Option (List String) → Bool
  /-- Result of `get_docker_native_health container`. -/
  native_status : Option String

/-- `MonitoringEngine._perform_custom_health_check`. -/
def perform_custom_health_check (env : ProbeEnv) (hc : HealthCheckConfig) : Bool :=
  if hc.check_type == "http" then
    env.http_ok hc.http_endpoint hc.http_expected_status hc.timeout_seconds
  else if hc.check_type == "tcp" then
    env.tcp_ok hc.tcp_port hc.timeout_seconds
  else if hc.check_type == "exec" then
    env.exec_ok hc.exec_command
  else if hc.check_type == "docker" then
    match env.native_status with
    | some s => s == "healthy"
    | none => true
  else true

/-! ## External monitor status (Uptime-Kuma)

`_evaluate_container_health` (monitoring_engine.py line 383) consults
`self.uptime_kuma_monitor.should_restart_from_uptime_kuma(stable_id)`.  That
method's body is not part of the sources at hand (only this call site and the
surrounding `UptimeKumaMonitor` class are). -/

/-- The poller's cached `stable_id → status` map (0=down, 1=up, 2=pending,
3=maintenance). -/
structure KumaCache where
  status : List (String × Int) := []
deriving DecidableEq, Repr

/-- Modelled from the spec: `should_restart_from_uptime_kuma` (called
`should_restart_from_external` in the spec), whose implementation is missing
from the sources.  Spec §4.9: "returns true iff: integration enabled,
`auto_restart_on_down` true, stable_id is mapped, and cached status == down".
-/
def should_restart_from_uptime_kuma (cfg : AutoHealConfig) (cache : KumaCache)
    (stable_id : String) : Bool :=
  cfg.uptime_kuma.enabled
    && cfg.uptime_kuma.auto_restart_on_down
    && cfg.uptime_kuma_mappings.any (fun m => m.container_id == stable_id)
    && lookupKey cache.status stable_id == some 0

/-! ## Health evaluator (`MonitoringEngine._evaluate_container_health`) -/

/-- Result of the chain of `get_custom_health_check` lookups: first by
`stable_id`, then container name, then full container id. -/
def resolve_custom_check (chc : List (String × HealthCheckConfig))
    (info : ContainerInfo) : Option HealthCheckConfig :=
  (lookupKey chc (get_stable_identifier info)).orElse fun _ =>
    (lookupKey chc info.name).orElse fun _ =>
      lookupKey chc info.full_id

/-- The external-signal step at the tail of the evaluator: present only when
the engine's `uptime_kuma_monitor` attribute is set and truthy (`kuma =
some cache`). -/
def kuma_step (cfg : AutoHealConfig) (kuma : Option KumaCache)
    (stable_id : String) : Bool × String :=
  match kuma with
  | some cache =>
    if should_restart_from_uptime_kuma cfg cache stable_id then
      (true, "Uptime-Kuma monitor reports DOWN")
    else (false, "")
  | none => (false, "")

/-- The native-health block (lines 375-379): fires only when the inspected
health block exists and reports `unhealthy`. -/
def native_health_check (info : ContainerInfo) : Option (Bool × String) :=
  match info.health with
  | some h =>
    if h.status == "unhealthy" then
      some (true, "Docker health check reports unhealthy")
    else none
  | none => none

/-- The health-mode block of the evaluator (lines 359-379): custom probe
first; a passing custom probe does *not* skip the native-health block (there
is no `else` between the two in the source). -/
def health_step (cfg : AutoHealConfig)
    (chc : List (String × HealthCheckConfig)) (env : ProbeEnv)
    (info : ContainerInfo) : Option (Bool × String) :=
  if cfg.restart.mode == "health" || cfg.restart.mode == "both" then
    match resolve_custom_check chc info with
    | some hc =>
      if !(perform_custom_health_check env hc) then
        some (true, "Custom health check failed (" ++ hc.check_type ++ ")")
      else native_health_check info
    | none => native_health_check info
  else none

/-- `MonitoringEngine._evaluate_container_health`.  `chc` is the
configuration manager's custom health-check dict, `env` resolves probe I/O,
`kuma` is the (optional) attached Uptime-Kuma monitor with its cache. -/
def evaluate_container_health (cfg : AutoHealConfig)
    (chc : List (String × HealthCheckConfig)) (env : ProbeEnv)
    (kuma : Option KumaCache) (info : ContainerInfo) : Bool × String :=
  let stable_id := get_stable_identifier info
  let status := pyLower info.state_status
  if status == "starting" then (false, "Container is starting")
  else if (status == "exited" || status == "stopped" || status == "dead")
      && (cfg.restart.mode == "on-failure" || cfg.restart.mode == "both") then
    let exit_code := info.state_exit_code.getD 0
    if exit_code == 0 && cfg.restart.respect_manual_stop then
      (false, "Manual stop (exit 0)")
    else if !(exit_code == 0) then
      (true, "Container exited with code " ++ toString exit_code)
    else (true, "Container stopped (exit 0)")
  else
    match health_step cfg chc env info with
    | some r => r
    | none => kuma_step cfg kuma stable_id

/-! ## Configuration-manager state operations (`ConfigManager`) -/

/-- `ConfigManager.add_event`: append, then trim to the last
`ui.max_log_entries` entries when the cap is exceeded. -/
def add_event (max_entries : Int) (log : List AutoHealEvent)
    (e : AutoHealEvent) : List AutoHealEvent :=
  let log' := log ++ [e]
  if max_entries < (log'.length : Int) then pyTail max_entries log' else log'

/-- `ConfigManager.get_events` (`limit` falsy ⇒ the whole log). -/
def get_events (log : List AutoHealEvent) (limit : Option Int) :
    List AutoHealEvent :=
  match limit with
  | some n => if n == 0 then log else pyTail n log
  | none => log

/-- `ConfigManager.record_restart`. -/
def record_restart (counts : List (String × Int)) (cid : String) :
    List (String × Int) :=
  setKey counts cid ((lookupKey counts cid).getD 0 + 1)

/-- `ConfigManager.get_restart_count`: returns the total count; the
`window_seconds` argument is accepted but never used. -/
def get_restart_count (counts : List (String × Int)) (cid : String)
    (window_seconds : Int) : Int :=
  (lookupKey counts cid).getD 0

/-! ## Engine state and actions -/

/-- Joint state of `ConfigManager` (configuration document, custom
health-check dict, event log, quarantine set, maintenance flag) and the
engine's in-memory scheduling dicts. -/
structure EngineState where
  config : AutoHealConfig := {}
  custom_checks : List (String × HealthCheckConfig) := []
  event_log : List AutoHealEvent := []
  quarantined : List String := []
  maintenance : Bool := false
  last_restart_times : List (String × Int) := []
  backoff_delays : List (String × Int) := []
deriving DecidableEq, Repr

/-- Externally visible side effects of one engine step (Docker restart call,
backoff sleep, notification fan-out, alert webhook POST). -/
inductive Action where
  | restart (full_id : String)
  | sleep (seconds : Int)
  | notify (e : AutoHealEvent)
  | webhook (e : AutoHealEvent)
deriving DecidableEq, Repr

/-- `config_manager.add_event` acting on the joint state. -/
def st_add_event (st : EngineState) (e : AutoHealEvent) : EngineState :=
  { st with event_log := add_event st.config.ui.max_log_entries st.event_log e }

/-- `config_manager.quarantine_container` (a Python `set.add`). -/
def st_quarantine (st : EngineState) (cid : String) : EngineState :=
  { st with quarantined :=
      if st.quarantined.contains cid then st.quarantined
      else st.quarantined ++ [cid] }

/-- `config_manager.unquarantine_container` (a Python `set.discard`). -/
def st_unquarantine (st : EngineState) (cid : String) : EngineState :=
  { st with quarantined := st.quarantined.filter (fun x => !(x == cid)) }

/-- Replace the `restart_counts` dict inside the joint state's config. -/
def st_set_counts (st : EngineState) (counts : List (String × Int)) : EngineState :=
  let cs' := { st.config.containers with restart_counts := counts }
  { st with config := { st.config with containers := cs' } }

/-- `config_manager.record_restart` acting on the joint state. -/
def st_record_restart (st : EngineState) (cid : String) : EngineState :=
  st_set_counts st (record_restart st.config.containers.restart_counts cid)

/-- `config_manager.clear_restart_history`. -/
def st_clear_restart_history (st : EngineState) (cid : String) : EngineState :=
  if (lookupKey st.config.containers.restart_counts cid).isSome then
    st_set_counts st (delKey st.config.containers.restart_counts cid)
  else st

/-! ## Selection filter (`MonitoringEngine.should_monitor_container`) -/

/-- Environment of a sweep step: `fnmatch.fnmatch` from the standard library,
the probe I/O outcomes, and the result of the Docker restart call. -/
structure SweepEnv where
  fnmatch : String → String → Bool
  probe : ProbeEnv
  restart_success : Bool

/-- A label filter entry matches when any of its key/value pairs equals the
container's label (`labels.get(key) == value`). -/
def label_filter_matches (labels : List (String × String))
    (lf : List (String × String)) : Bool :=
  lf.any (fun kv => lookupKey labels kv.1 == some kv.2)

/-- `MonitoringEngine.should_monitor_container`. -/
def should_monitor_container (cfg : AutoHealConfig)
    (fnm : String → String → Bool) (info : ContainerInfo) : Bool :=
  let container_id := info.full_id
  let short_id := info.id
  let container_name := info.name
  let labels := info.labels
  let stable_id := get_stable_identifier info
  let compose_service := lookupKey labels "com.docker.compose.service"
  let hits := fun (l : List String) =>
    l.contains stable_id || l.contains container_id || l.contains short_id
      || l.contains container_name
      || (truthy compose_service && l.contains (compose_service.getD ""))
  if hits cfg.containers.excluded then false
  else if hits cfg.containers.selected then true
  else if !cfg.monitor.include_all
      && !(lookupKey labels cfg.monitor.label_key == some cfg.monitor.label_value) then
    false
  else if cfg.filters.blacklist_names.any (fun p => fnm container_name p) then
    false
  else if !cfg.filters.whitelist_names.isEmpty
      && !(cfg.filters.whitelist_names.any (fun p => fnm container_name p)) then
    false
  else if cfg.filters.blacklist_labels.any (label_filter_matches labels) then
    false
  else if !cfg.filters.whitelist_labels.isEmpty
      && !(cfg.filters.whitelist_labels.any (label_filter_matches labels)) then
    false
  else true

/-! ## Restart scheduler (`MonitoringEngine._handle_container_restart`) -/

/-- `MonitoringEngine._handle_container_restart`: cooldown, threshold /
quarantine, backoff, restart, recording, events. -/
def handle_container_restart (st : EngineState) (env : SweepEnv) (now : Int)
    (info : ContainerInfo) (reason : String) : EngineState × List Action :=
  let cfg := st.config
  let container_id := info.full_id
  let container_name := info.name
  let stable_id := get_stable_identifier info
  let in_cooldown : Bool :=
    match lookupKey st.last_restart_times stable_id with
    | some t => decide (now - t < cfg.restart.cooldown_seconds)
    | none => false
  if in_cooldown then (st, [])
  else
    let restart_count := get_restart_count cfg.containers.restart_counts
      stable_id cfg.restart.max_restarts_window_seconds
    if cfg.restart.max_restarts ≤ restart_count then
      let st1 := st_quarantine st stable_id
      let e : AutoHealEvent :=
        { timestamp := now
          container_name := container_name ++ " (" ++ stable_id ++ ")"
          container_id := container_id
          event_type := "quarantine"
          restart_count := restart_count
          status := "quarantined"
          message := ("Container quarantined: exceeded "
            ++ toString cfg.restart.max_restarts ++ " restarts in "
            ++ toString cfg.restart.max_restarts_window_seconds ++ "s window") }
      let st2 := st_add_event st1 e
      let alert_acts :=
        if cfg.alerts.enabled && cfg.alerts.notify_on_quarantine
            && truthy cfg.alerts.webhook then
          [Action.webhook e]
        else []
      (st2, [Action.notify e] ++ alert_acts)
    else
      let backoff_acts :=
        if cfg.restart.backoff.enabled then
          [Action.sleep ((lookupKey st.backoff_delays stable_id).getD
            cfg.restart.backoff.initial_seconds)]
        else []
      let st3 :=
        if cfg.restart.backoff.enabled then
          let delay := (lookupKey st.backoff_delays stable_id).getD
            cfg.restart.backoff.initial_seconds
          let nb := setKey st.backoff_delays stable_id
            (pyTrunc ((delay : ℚ) * cfg.restart.backoff.multiplier))
          { st with backoff_delays := nb }
        else st
      let success := env.restart_success
      let st4 := st_record_restart st3 stable_id
      let lrt := setKey st4.last_restart_times stable_id now
      let st5 := { st4 with last_restart_times := lrt }
      let e : AutoHealEvent :=
        { timestamp := now
          container_name := container_name ++ " (" ++ stable_id ++ ")"
          container_id := container_id
          event_type := "restart"
          restart_count := restart_count + 1
          status := if success then "success" else "failure"
          message := ("Restart " ++ (if success then "successful" else "failed")
            ++ ": " ++ reason) }
      let st6 := st_add_event st5 e
      let st7 :=
        if success then
          let nb := setKey st6.backoff_delays stable_id
            cfg.restart.backoff.initial_seconds
          { st6 with backoff_delays := nb }
        else st6
      (st7, backoff_acts ++ [Action.restart container_id, Action.notify e])

/-! ## Quarantine auto-release and the sweep step -/

/-- `MonitoringEngine._auto_unquarantine_container`. -/
def auto_unquarantine_container (st : EngineState) (now : Int)
    (quarantine_id stable_id container_name container_id : String) :
    EngineState × List Action :=
  let st1 := st_unquarantine st quarantine_id
  let st2 := st_clear_restart_history st1 stable_id
  let st3 :=
    if (lookupKey st2.backoff_delays stable_id).isSome then
      let nb := setKey st2.backoff_delays stable_id
        st2.config.restart.backoff.initial_seconds
      { st2 with backoff_delays := nb }
    else st2
  let e : AutoHealEvent :=
    { timestamp := now
      container_name := container_name ++ " (" ++ stable_id ++ ")"
      container_id := container_id
      event_type := "auto_unquarantine"
      restart_count := 0
      status := "success"
      message := "Container automatically removed from quarantine - auto-healed and now healthy" }
  (st_add_event st3 e, [Action.notify e])

/-- `MonitoringEngine._check_single_container`: one container of one sweep. -/
def check_single_container (st : EngineState) (env : SweepEnv)
    (kuma : Option KumaCache) (now : Int) (info : ContainerInfo) :
    EngineState × List Action :=
  if st.maintenance then (st, [])
  else
    let container_id := info.full_id
    let container_name := info.name
    let stable_id := get_stable_identifier info
    if !(should_monitor_container st.config env.fnmatch info) then (st, [])
    else
      let quarantine_id :=
        if st.quarantined.contains stable_id then some stable_id
        else if st.quarantined.contains container_name then some container_name
        else if st.quarantined.contains container_id then some container_id
        else none
      match quarantine_id with
      | some qid =>
        if pyLower info.state_status == "running" then
          let verdict := evaluate_container_health st.config st.custom_checks
            env.probe kuma info
          if !verdict.1 then
            auto_unquarantine_container st now qid stable_id container_name
              container_id
          else (st, [])
        else (st, [])
      | none =>
        let verdict := evaluate_container_health st.config st.custom_checks
          env.probe kuma info
        if verdict.1 then handle_container_restart st env now info verdict.2
        else (st, [])

/-! ## Uptime-Kuma poller (`uptime_kuma_monitor.py`) -/

/-- The container lookup loop of `_handle_monitor_down` (lines 140-147):
`info.get("stable_id") == stable_id` over each running container's
`get_container_info` dict. -/
def find_container_by_stable_id (containers : List ContainerInfo)
    (stable_id : String) : Option ContainerInfo :=
  containers.find? (fun c => info_get c "stable_id" == some stable_id)

/-- `UptimeKumaMonitor._handle_monitor_down`.  `containers` is the
`list_containers(all_containers=False)` result (inspection already applied);
the embedded path is the non-raising one, so the `except` branch that logs a
failure event is not taken. -/
def handle_monitor_down (st : EngineState) (containers : List ContainerInfo)
    (now : Int) (stable_id monitor_name : String) : EngineState × List Action :=
  if st.quarantined.contains stable_id then (st, [])
  else if st.maintenance then (st, [])
  else
    match find_container_by_stable_id containers stable_id with
    | none => (st, [])
    | some info =>
      let cfg := st.config
      let container_name := info.name
      let container_id := info.full_id
      let short_id := info.id
      let labels := info.labels
      let compose_service := lookupKey labels "com.docker.compose.service"
      let is_selected :=
        cfg.containers.selected.contains stable_id
          || cfg.containers.selected.contains container_id
          || cfg.containers.selected.contains short_id
          || cfg.containers.selected.contains container_name
          || (truthy compose_service
              && cfg.containers.selected.contains (compose_service.getD ""))
      let is_selected2 :=
        if !is_selected then
          if cfg.monitor.include_all then true
          else lookupKey labels cfg.monitor.label_key == some cfg.monitor.label_value
        else is_selected
      if !is_selected2 then (st, [])
      else
        let st1 := st_record_restart st stable_id
        let e : AutoHealEvent :=
          { timestamp := now
            container_id := container_id.take 12
            container_name := container_name
            event_type := "uptime_kuma_restart"
            restart_count := (lookupKey st1.config.containers.restart_counts stable_id).getD 0
            status := "success"
            message := ("Restarted due to Uptime-Kuma monitor '" ++ monitor_name
              ++ "' DOWN status") }
        (st_add_event st1 e, [Action.restart container_id])

/-- Environment of the poller: `UptimeKumaClient.get_monitor_status_by_name`
(an HTTP fetch of the metrics endpoint). -/
structure KumaPollEnv where
  get_status_by_name : String → Option Int

/-- `UptimeKumaMonitor._check_all_mappings`: one polling cycle over the
configured mappings. -/
def check_all_mappings (st : EngineState) (env : KumaPollEnv)
    (containers : List ContainerInfo) (now : Int) : EngineState × List Action :=
  if st.config.uptime_kuma_mappings.isEmpty then (st, [])
  else
    st.config.uptime_kuma_mappings.foldl
      (fun acc m =>
        match env.get_status_by_name m.monitor_friendly_name with
        | none => acc
        | some s =>
          if s == 0 && st.config.uptime_kuma.auto_restart_on_down then
            let r := handle_monitor_down acc.1 containers now m.container_id
              m.monitor_friendly_name
            (r.1, acc.2 ++ r.2)
          else acc)
      (st, [])

/-! ## Auto-enrollment (`MonitoringEngine._process_container_start_event`) -/

/-- The fields of a Docker `container start` event the listener reads:
`event.get("id")` and `Actor.Attributes.get("name", "unknown")`. -/
structure StartEvent where
  id : Option String
  name : String := "unknown"

/-- `MonitoringEngine._process_container_start_event`.  `resolve` stands for
`get_container` followed by `get_container_info` (Docker I/O); `none` covers
both an unknown container and a failed inspection. -/
def process_container_start_event (st : EngineState)
    (resolve : String → Option ContainerInfo) (now : Int) (ev : StartEvent) :
    EngineState × List Action :=
  if !truthy ev.id then (st, [])
  else
    let cid := ev.id.getD ""
    let container_name := ev.name
    match resolve cid with
    | none => (st, [])
    | some info =>
      if lookupKey info.labels "autoheal" == some "true" then
        let cfg := st.config
        let stable_id := inline_stable_id info.labels container_name
        if cfg.containers.selected.contains stable_id
            || cfg.containers.selected.contains container_name
            || cfg.containers.selected.contains cid then (st, [])
        else if cfg.containers.excluded.contains stable_id
            || cfg.containers.excluded.contains container_name
            || cfg.containers.excluded.contains cid then (st, [])
        else
          let cs' := { cfg.containers with selected :=
            cfg.containers.selected ++ [stable_id] }
          let st1 := { st with config := { cfg with containers := cs' } }
          let e : AutoHealEvent :=
            { timestamp := now
              container_name := container_name ++ " (" ++ stable_id ++ ")"
              container_id := cid
              event_type := "auto_monitor"
              restart_count := 0
              status := "enabled"
              message := ("Automatically added to monitoring due to autoheal=true label (stable_id: "
                ++ stable_id ++ ")") }
          (st_add_event st1 e, [Action.notify e])
      else (st, [])

/-! ## Selection mutations (`api.update_container_selection` and enrollment)

Atomic steps over the `ContainersConfig` lists; one POST with `n` ids is the
fold of `n` atomic steps.  Each step carries the outcome of the Docker
resolution of its id (`none` = the fallback branch for an unresolvable id).
-/

inductive SelOp where
  /-- One iteration of the `enabled=True` loop of
  `update_container_selection` for id `cid`, resolved to `r`. -/
  | selectOne (r : Option ContainerInfo) (cid : String)
  /-- One iteration of the `enabled=False` loop. -/
  | excludeOne (r : Option ContainerInfo) (cid : String)
  /-- One auto-enrollment attempt (`_process_container_start_event` /
  `_scan_existing_containers`) for a container inspected as `info`, with
  event name `event_name` and runtime id `cid`. -/
  | enroll (info : ContainerInfo) (event_name cid : String)

/-- Apply one selection mutation, exactly as the source mutates the
`selected` / `excluded` lists. -/
def apply_sel_op (cs : ContainersConfig) : SelOp → ContainersConfig
  | SelOp.selectOne (some info) cid =>
    let container_name := info.name
    let stable_id := inline_stable_id info.labels container_name
    let sel := if cs.selected.contains stable_id then cs.selected
      else cs.selected ++ [stable_id]
    let exc := ((cs.excluded.erase stable_id).erase container_name).erase cid
    { cs with selected := sel, excluded := exc }
  | SelOp.selectOne none cid =>
    let sel := if cs.selected.contains cid then cs.selected
      else cs.selected ++ [cid]
    { cs with selected := sel, excluded := cs.excluded.erase cid }
  | SelOp.excludeOne (some info) cid =>
    let container_name := info.name
    let stable_id := inline_stable_id info.labels container_name
    let exc := if cs.excluded.contains stable_id then cs.excluded
      else cs.excluded ++ [stable_id]
    let sel := ((cs.selected.erase stable_id).erase container_name).erase cid
    { cs with selected := sel, excluded := exc }
  | SelOp.excludeOne none cid =>
    let exc := if cs.excluded.contains cid then cs.excluded
      else cs.excluded ++ [cid]
    { cs with selected := cs.selected.erase cid, excluded := exc }
  | SelOp.enroll info event_name cid =>
    if lookupKey info.labels "autoheal" == some "true" then
      let stable_id := inline_stable_id info.labels event_name
      if cs.selected.contains stable_id || cs.selected.contains event_name
          || cs.selected.contains cid then cs
      else if cs.excluded.contains stable_id || cs.excluded.contains event_name
          || cs.excluded.contains cid then cs
      else { cs with selected := cs.selected ++ [stable_id] }
    else cs

/-- A sequence of selection mutations. -/
def apply_sel_ops (cs : ContainersConfig) (ops : List SelOp) : ContainersConfig :=
  ops.foldl apply_sel_op cs

/-! ## Persistence traces (`ConfigManager._save_*`)

Each `_save_*` method runs `with open(FILE, 'w') as f: json.dump(doc, f)`.
Opening with mode `'w'` truncates the target immediately; the serialized
document is then written to the same path.  A trace records these steps so
that the file visible to a concurrent reader can be stated after every
prefix. -/

inductive FsOp where
  /-- `open(path, 'w')`: truncates `path` to length zero. -/
  | openTrunc (path : String)
  /-- `json.dump(...)` completing: `path` now holds the full serialization. -/
  | writeData (path : String) (doc : String)
  /-- `os.rename(src, dst)` / `Path.replace` (not used by the source). -/
  | rename (src dst : String)
deriving DecidableEq, Repr

/-- What a reader of one file can observe. -/
inductive FileView where
  | absent
  | full (doc : String)
  | truncated
deriving DecidableEq, Repr

/-- Effect of one file operation on the file system (a map from path to
view). -/
def applyFsOp (fs : String → FileView) : FsOp → String → FileView
  | FsOp.openTrunc p, q => if q = p then FileView.truncated else fs q
  | FsOp.writeData p doc, q => if q = p then FileView.full doc else fs q
  | FsOp.rename s d, q =>
    if q = d then fs s else if q = s then FileView.absent else fs q

/-- Effect of a trace of file operations. -/
def applyFsOps (fs : String → FileView) (tr : List FsOp) : String → FileView :=
  tr.foldl applyFsOp fs

/-- Trace of `ConfigManager._save_config` (line 220: `open(self.CONFIG_FILE,
'w')` then `json.dump`), `doc` being the serialized document. -/
def save_config_ops (doc : String) : List FsOp :=
  [FsOp.openTrunc "config.json", FsOp.writeData "config.json" doc]

/-- Trace of `ConfigManager._save_events` (line 243). -/
def save_events_ops (doc : String) : List FsOp :=
  [FsOp.openTrunc "events.json", FsOp.writeData "events.json" doc]

/-- Trace of `ConfigManager._save_quarantine` (line 271). -/
def save_quarantine_ops (doc : String) : List FsOp :=
  [FsOp.openTrunc "quarantine.json", FsOp.writeData "quarantine.json" doc]

/-- Trace of `ConfigManager._save_maintenance_mode` (line 298). -/
def save_maintenance_ops (doc : String) : List FsOp :=
  [FsOp.openTrunc "maintenance.json", FsOp.writeData "maintenance.json" doc]

/-- From the spec's words (§4.2 / §6): a *write-temp-then-rename* persistence
step writes the serialized document to a temporary file and then renames it
over the target, so the target itself is only ever touched by the rename. -/
def writes_temp_then_rename (tr : List FsOp) (target : String) : Prop :=
  ∃ tmp doc, tmp ≠ target
    ∧ tr = [FsOp.openTrunc tmp, FsOp.writeData tmp doc, FsOp.rename tmp target]

/-! ## Event-log lifecycle (`ConfigManager` event operations)

The in-memory log together with the configured cap, and the operations that
touch it during the manager's lifetime: appending (`add_event`), clearing
(`clear_events`), replacing the cap (`update_config` with a new
`ui.max_log_entries`), and loading whatever `events.json` parses to at
startup (`_load_events`, which performs no trimming). -/

structure EventLogState where
  log : List AutoHealEvent := []
  max_log_entries : Int := 50
deriving DecidableEq, Repr

inductive LogOp where
  | add (e : AutoHealEvent)
  | clear
  | load (file : List AutoHealEvent)
  | setCap (m : Int)
deriving Repr

def apply_log_op (s : EventLogState) : LogOp → EventLogState
  | LogOp.add e => { s with log := add_event s.max_log_entries s.log e }
  | LogOp.clear => { s with log := [] }
  | LogOp.load file => { s with log := file }
  | LogOp.setCap m => { s with max_log_entries := m }

def apply_log_ops (s : EventLogState) (ops : List LogOp) : EventLogState :=
  ops.foldl apply_log_op s

/-- A throwaway concrete event used in closed counterexamples. -/
def ev0 : AutoHealEvent :=
  { timestamp := 0, container_id := "c0", container_name := "web"
    event_type := "restart", restart_count := 1, status := "success"
    message := "Restart successful: test" }

/-! ## Helper lemmas -/

theorem add_event_eq_drop_append (max : Int) (log : List AutoHealEvent)
    (e : AutoHealEvent) (h : 1 ≤ max) :
    add_event max log e = log.drop (log.length + 1 - max.toNat) ++ [e] := by
  have hlen : (log ++ [e]).length = log.length + 1 := by simp
  unfold add_event
  by_cases hlt : max < ((log ++ [e]).length : Int)
  · rw [if_pos hlt]
    unfold pyTail
    rw [if_pos (show (0 : Int) < max by omega), hlen]
    exact List.drop_append_of_le_length (by omega)
  · rw [if_neg hlt]
    rw [hlen] at hlt
    have h0 : log.length + 1 - max.toNat = 0 := by omega
    rw [h0, List.drop_zero]

theorem add_event_getLast (max : Int) (log : List AutoHealEvent)
    (e : AutoHealEvent) (h : 1 ≤ max) :
    (add_event max log e).getLast? = some e := by
  rw [add_event_eq_drop_append max log e h]
  exact List.getLast?_concat _

theorem add_event_length_le (max : Int) (log : List AutoHealEvent)
    (e : AutoHealEvent) (h : 1 ≤ max) :
    ((add_event max log e).length : Int) ≤ max := by
  rw [add_event_eq_drop_append max log e h]
  simp only [List.length_append, List.length_drop, List.length_singleton]
  omega

/-! ## C10: `get_events` limit handling -/

/-- C10: for every event-log state, `get_events` with `limit = 0` returns the
entire log (the falsy limit is treated like no limit) rather than an empty
list, and `get_events` with a positive limit `n` returns exactly the last
`min n length` events (the suffix of the log of that length). -/
theorem C10_get_events_limit (log : List AutoHealEvent) :
    get_events log (some 0) = log
      ∧ get_events log none = log
      ∧ ∀ n : Int, 0 < n →
          (get_events log (some n)).length = min n.toNat log.length
            ∧ get_events log (some n) = log.drop (log.length - n.toNat) := by
  refine ⟨rfl, rfl, fun n hn => ?_⟩
  have hne : (n == 0) = false := by simp; omega
  constructor
  · simp only [get_events, hne, Bool.false_eq_true, if_false, pyTail, hn, if_pos]
    rw [List.length_drop]
    omega
  · simp only [get_events, hne, Bool.false_eq_true, if_false, pyTail, hn, if_pos]

/-- Witness for C10 at a concrete log and limit. -/
theorem C10_get_events_limit_witness :
    get_events [ev0, ev0, ev0] (some 0) = [ev0, ev0, ev0]
      ∧ (get_events [ev0, ev0, ev0] (some 2)).length = 2 := by
  refine ⟨(C10_get_events_limit [ev0, ev0, ev0]).1, ?_⟩
  have h := ((C10_get_events_limit [ev0, ev0, ev0]).2.2 2 (by norm_num)).1
  simpa using h

/-! ## C8: event-log cap -/

/-- C8 counterexample: the claim "at all times the event log holds at most
`max_log_entries` events" fails on a reachable state: `_load_events` performs
no trimming, so after the cap is lowered to 2 (a persisted `update_config`)
and a previously written three-entry `events.json` is loaded at the next
startup, the in-memory log holds 3 > 2 entries. -/
theorem C8_cap_counterexample :
    let s := apply_log_ops {} [LogOp.setCap 2, LogOp.load [ev0, ev0, ev0]]
    ¬ ((s.log.length : Int) ≤ s.max_log_entries) := by
  intro s
  simp [s, apply_log_ops, apply_log_op]

/-- C8 (amended): after every `add_event` the log holds at most
`max_log_entries` entries and the retained entries are the most recent ones
in append order (the log becomes the longest fitting suffix of the appended
log, so the oldest entries are the ones dropped); a log loaded from disk may
exceed the cap until the next append. -/
theorem C8_cap_after_append (s : EventLogState) (e : AutoHealEvent)
    (h : 1 ≤ s.max_log_entries) :
    let s' := apply_log_op s (LogOp.add e)
    ((s'.log.length : Int) ≤ s.max_log_entries)
      ∧ s'.log = (s.log ++ [e]).drop (s.log.length + 1 - s.max_log_entries.toNat) := by
  intro s'
  have hk : s.log.length + 1 - s.max_log_entries.toNat ≤ s.log.length := by omega
  refine ⟨add_event_length_le _ _ _ h, ?_⟩
  show add_event s.max_log_entries s.log e = _
  rw [add_event_eq_drop_append _ _ _ h, List.drop_append_of_le_length hk]

/-- Witness for C8 (amended) at a concrete state: cap 2, two entries, one
append. -/
theorem C8_cap_after_append_witness :
    (1 : Int) ≤ 2
      ∧ (((apply_log_op { log := [ev0, ev0], max_log_entries := 2 }
            (LogOp.add ev0)).log.length : Int) ≤ 2) := by
  refine ⟨by norm_num, ?_⟩
  exact (C8_cap_after_append { log := [ev0, ev0], max_log_entries := 2 } ev0
    (by norm_num)).1

/-! ## C4: persistence write pattern -/

/-- C4 counterexample: `_save_config` does not follow the
write-temp-then-rename pattern; its trace opens the target itself with mode
`'w'` and writes in place, and a reader between the truncate and the write
observes a truncated `config.json` instead of the previous document. -/
theorem C4_save_counterexample :
    ¬ writes_temp_then_rename (save_config_ops "doc1") "config.json"
      ∧ applyFsOps (fun _ => FileView.full "doc0")
          ((save_config_ops "doc1").take 1) "config.json" = FileView.truncated := by
  constructor
  · rintro ⟨tmp, doc, hne, heq⟩
    simp [save_config_ops] at heq
  · rfl

/-- C4 (amended): every state-store persistence step (`config`, `events`,
`quarantine`, `maintenance`) truncates its target file in place and then
writes the serialized document directly to it: the final state holds the full
document, but after the truncating `open` and before the write completes a
reader of the file observes a truncated document, and none of the four traces
matches the write-temp-then-rename pattern. -/
theorem C4_saves_write_in_place (doc : String) (fs : String → FileView) :
    (applyFsOps fs (save_config_ops doc) "config.json" = FileView.full doc
      ∧ applyFsOps fs ((save_config_ops doc).take 1) "config.json" = FileView.truncated
      ∧ ¬ writes_temp_then_rename (save_config_ops doc) "config.json")
    ∧ (applyFsOps fs (save_events_ops doc) "events.json" = FileView.full doc
      ∧ applyFsOps fs ((save_events_ops doc).take 1) "events.json" = FileView.truncated
      ∧ ¬ writes_temp_then_rename (save_events_ops doc) "events.json")
    ∧ (applyFsOps fs (save_quarantine_ops doc) "quarantine.json" = FileView.full doc
      ∧ applyFsOps fs ((save_quarantine_ops doc).take 1) "quarantine.json" = FileView.truncated
      ∧ ¬ writes_temp_then_rename (save_quarantine_ops doc) "quarantine.json")
    ∧ (applyFsOps fs (save_maintenance_ops doc) "maintenance.json" = FileView.full doc
      ∧ applyFsOps fs ((save_maintenance_ops doc).take 1) "maintenance.json" = FileView.truncated
      ∧ ¬ writes_temp_then_rename (save_maintenance_ops doc) "maintenance.json") := by
  refine ⟨⟨rfl, rfl, ?_⟩, ⟨rfl, rfl, ?_⟩, ⟨rfl, rfl, ?_⟩, ⟨rfl, rfl, ?_⟩⟩ <;>
    · rintro ⟨tmp, d, hne, heq⟩
      simp [save_config_ops, save_events_ops, save_quarantine_ops,
        save_maintenance_ops] at heq

/-! ## C2: the poller's down-handler container lookup -/

theorem info_get_stable_id (c : ContainerInfo) : info_get c "stable_id" = none := rfl

theorem find_container_by_stable_id_eq_none (containers : List ContainerInfo)
    (sid : String) : find_container_by_stable_id containers sid = none := by
  unfold find_container_by_stable_id
  rw [List.find?_eq_none]
  intro c _
  simp [info_get_stable_id]

theorem handle_monitor_down_no_op (st : EngineState)
    (containers : List ContainerInfo) (now : Int) (sid mn : String) :
    handle_monitor_down st containers now sid mn = (st, []) := by
  unfold handle_monitor_down
  by_cases h1 : st.quarantined.contains sid
  · rw [if_pos h1]
  · rw [if_neg h1]
    by_cases h2 : st.maintenance
    · rw [if_pos h2]
    · rw [if_neg h2, find_container_by_stable_id_eq_none]

/-- A running compose container `app/api` whose stable identifier is
`app_api`, used as the concrete failing input. -/
def info_app_api : ContainerInfo :=
  { id := "aaaaaaaaaaaa", full_id := "aaaaaaaaaaaa1111", name := "app-api-1"
    state_status := "running"
    labels := [("com.docker.compose.project", "app"),
      ("com.docker.compose.service", "api"), ("autoheal", "true")] }

/-- State for the failing input of C2: `app_api` selected, mapped to monitor
`API`, integration enabled with `auto_restart_on_down`, not quarantined, not
in maintenance. -/
def st_app_api : EngineState :=
  { config :=
      { containers := { selected := ["app_api"] }
        uptime_kuma :=
          { enabled := true
            server_url := "http://kuma:3001"
            api_token := "k"
            auto_restart_on_down := true }
        uptime_kuma_mappings :=
          [{ container_id := "app_api", monitor_friendly_name := "API" }] } }

/-- C2: `_handle_monitor_down` compares `info.get("stable_id")` against the
mapped stable id, but `get_container_info` never puts a `"stable_id"` key
into the dict it builds, so the lookup fails for every container and the
handler returns without restarting, recording, or emitting anything — for
every input, and in particular for the mapped, selected, running `app_api`
container that the claim expects to be restarted. -/
theorem C2_down_handler_restarts_nothing :
    (∀ (st : EngineState) (containers : List ContainerInfo) (now : Int)
        (sid mn : String),
        handle_monitor_down st containers now sid mn = (st, []))
      ∧ get_stable_identifier info_app_api = "app_api"
      ∧ handle_monitor_down st_app_api [info_app_api] 0 "app_api" "API"
          = (st_app_api, []) := by
  refine ⟨handle_monitor_down_no_op, by decide, ?_⟩
  exact handle_monitor_down_no_op st_app_api [info_app_api] 0 "app_api" "API"

/-! ## C6: maintenance mode -/

theorem check_all_mappings_no_op (st : EngineState) (env : KumaPollEnv)
    (containers : List ContainerInfo) (now : Int) :
    check_all_mappings st env containers now = (st, []) := by
  unfold check_all_mappings
  by_cases h : st.config.uptime_kuma_mappings.isEmpty
  · simp [h]
  · rw [if_neg h]
    have step : ∀ (ms : List UptimeKumaMapping) (acc : EngineState × List Action),
        ms.foldl (fun acc m =>
          match env.get_status_by_name m.monitor_friendly_name with
          | none => acc
          | some s =>
            if s == 0 && st.config.uptime_kuma.auto_restart_on_down then
              let r := handle_monitor_down acc.1 containers now m.container_id
                m.monitor_friendly_name
              (r.1, acc.2 ++ r.2)
            else acc) acc = acc := by
      intro ms
      induction ms with
      | nil => intro acc; rfl
      | cons m ms ih =>
        intro acc
        rw [List.foldl_cons]
        have hm : (match env.get_status_by_name m.monitor_friendly_name with
            | none => acc
            | some s =>
              if s == 0 && st.config.uptime_kuma.auto_restart_on_down then
                let r := handle_monitor_down acc.1 containers now m.container_id
                  m.monitor_friendly_name
                (r.1, acc.2 ++ r.2)
              else acc) = acc := by
          cases env.get_status_by_name m.monitor_friendly_name with
          | none => rfl
          | some s =>
            simp only [handle_monitor_down_no_op]
            split <;> simp
        rw [hm, ih]
    exact step _ _

/-- C6: while maintenance mode is on, the sweep's per-container step performs
no action at all (so no restart), and the external-monitor polling cycle
performs no action; the start-event auto-enrollment behaves identically
whatever the maintenance flag is (it changes the same state components and
emits the same actions), and when its enrollment conditions hold during
maintenance it still appends its `auto_monitor` event to the log. -/
theorem C6_maintenance_blocks_restarts :
    (∀ (st : EngineState) (env : SweepEnv) (kuma : Option KumaCache)
        (now : Int) (info : ContainerInfo), st.maintenance = true →
        check_single_container st env kuma now info = (st, []))
    ∧ (∀ (st : EngineState) (env : KumaPollEnv)
        (containers : List ContainerInfo) (now : Int), st.maintenance = true →
        check_all_mappings st env containers now = (st, []))
    ∧ (∀ (st : EngineState) (resolve : String → Option ContainerInfo)
        (now : Int) (ev : StartEvent) (b : Bool),
        (process_container_start_event { st with maintenance := b } resolve now ev).2
            = (process_container_start_event st resolve now ev).2
          ∧ (process_container_start_event { st with maintenance := b } resolve now ev).1
            = { (process_container_start_event st resolve now ev).1 with
                maintenance := b })
    ∧ (∀ (st : EngineState) (resolve : String → Option ContainerInfo)
        (now : Int) (ev : StartEvent) (info : ContainerInfo),
        st.maintenance = true →
        truthy ev.id = true →
        resolve (ev.id.getD "") = some info →
        lookupKey info.labels "autoheal" = some "true" →
        (st.config.containers.selected.contains (inline_stable_id info.labels ev.name)
          || st.config.containers.selected.contains ev.name
          || st.config.containers.selected.contains (ev.id.getD "")) = false →
        (st.config.containers.excluded.contains (inline_stable_id info.labels ev.name)
          || st.config.containers.excluded.contains ev.name
          || st.config.containers.excluded.contains (ev.id.getD "")) = false →
        1 ≤ st.config.ui.max_log_entries →
        ∃ e, (process_container_start_event st resolve now ev).1.event_log.getLast?
              = some e
          ∧ e.event_type = "auto_monitor"
          ∧ (process_container_start_event st resolve now ev).2 = [Action.notify e]) := by
  refine ⟨?_, ?_, ?_, ?_⟩
  · intro st env kuma now info hm
    unfold check_single_container
    rw [if_pos hm]
  · intro st env containers now _
    exact check_all_mappings_no_op st env containers now
  · intro st resolve now ev b
    unfold process_container_start_event
    by_cases h1 : truthy ev.id
    · simp only [h1, Bool.not_true, Bool.false_eq_true, if_false]
      cases hres : resolve (ev.id.getD "") with
      | none => exact ⟨rfl, rfl⟩
      | some info =>
        by_cases h2 : lookupKey info.labels "autoheal" == some "true"
        · simp only [h2, if_pos]
          split
          · exact ⟨rfl, rfl⟩
          · split
            · exact ⟨rfl, rfl⟩
            · exact ⟨rfl, rfl⟩
        · simp only [h2, Bool.false_eq_true, if_false]
          constructor <;> first | rfl | trivial
    · simp only [h1, Bool.not_false]
      exact ⟨rfl, rfl⟩
  · intro st resolve now ev info _ h1 hres hal hsel hexc hcap
    unfold process_container_start_event
    simp only [h1, Bool.not_true, Bool.false_eq_true, if_false, hres]
    have hal' : (lookupKey info.labels "autoheal" == some "true") = true := by
      simp [hal]
    simp only [hal', if_pos, hsel, Bool.false_eq_true, if_false, hexc]
    refine ⟨_, ?_, rfl, rfl⟩
    exact add_event_getLast _ _ _ hcap

/-- Witness for C6 at concrete inputs: a maintenance-enabled state, the
trivial sweep environment and a start event that satisfies every enrollment
condition. -/
def probe_env0 : ProbeEnv :=
  { http_ok := fun _ _ _ => true, tcp_ok := fun _ _ => true
    exec_ok := fun _ => true, native_status := none }

def sweep_env0 : SweepEnv :=
  { fnmatch := fun _ _ => false, probe := probe_env0, restart_success := true }

def st_maint : EngineState := { maintenance := true }

def resolve0 : String → Option ContainerInfo := fun cid =>
  if cid == "aaaaaaaaaaaa1111" then some info_app_api else none

theorem C6_maintenance_blocks_restarts_witness :
    check_single_container st_maint sweep_env0 none 0 info_app_api = (st_maint, [])
      ∧ ∃ e, (process_container_start_event st_maint resolve0 0
            { id := some "aaaaaaaaaaaa1111", name := "app-api-1" }).1.event_log.getLast?
            = some e
          ∧ e.event_type = "auto_monitor" := by
  constructor
  · exact C6_maintenance_blocks_restarts.1 st_maint sweep_env0 none 0 info_app_api rfl
  · obtain ⟨e, h1, h2, _⟩ := C6_maintenance_blocks_restarts.2.2.2 st_maint resolve0 0
      { id := some "aaaaaaaaaaaa1111", name := "app-api-1" } info_app_api rfl
      (by decide) (by decide) (by decide) (by decide) (by decide) (by decide)
    exact ⟨e, h1, h2⟩

/-! ## Dictionary helper lemmas -/

theorem lookupKey_setKey {α : Type} (d : List (String × α)) (k : String)
    (v : α) : lookupKey (setKey d k v) k = some v := by
  induction d with
  | nil => simp [setKey, lookupKey]
  | cons p d ih =>
    by_cases hp : p.1 == k
    · simp [setKey, lookupKey, hp]
    · simp [setKey, lookupKey, hp, ih]

theorem mem_st_quarantine (st : EngineState) (sid : String) :
    sid ∈ (st_quarantine st sid).quarantined := by
  show sid ∈
    (if st.quarantined.contains sid then st.quarantined
      else st.quarantined ++ [sid])
  by_cases h : st.quarantined.contains sid
  · rw [if_pos h]
    simpa using h
  · rw [if_neg h]
    simp

/-! ## C3: restart threshold and quarantine -/

/-- State for the C3 counterexample: the counter for `app_api` is already at
the `max_restarts` threshold, but `app_api` restarted 10 seconds ago and the
cooldown is 60 seconds. -/
def st_cooldown : EngineState :=
  { config := { containers :=
      { selected := ["app_api"], restart_counts := [("app_api", 3)] } }
    last_restart_times := [("app_api", 0)] }

/-- C3 counterexample: the scheduler is invoked with a restart verdict and a
stored count `n = 3 ≥ max_restarts = 3`, yet it neither quarantines nor emits
any event, because the cooldown check precedes the threshold check and the
stable id restarted 10 s ago with a 60 s cooldown. -/
theorem C3_cooldown_counterexample :
    get_restart_count st_cooldown.config.containers.restart_counts "app_api"
        st_cooldown.config.restart.max_restarts_window_seconds = 3
      ∧ st_cooldown.config.restart.max_restarts = 3
      ∧ handle_container_restart st_cooldown sweep_env0 10 info_app_api
          "Container exited with code 137" = (st_cooldown, [])
      ∧ "app_api" ∉ st_cooldown.quarantined := by
  refine ⟨rfl, rfl, by decide, by decide⟩

/-- C3 (amended): for every stable_id, when the evaluator requests a restart,
the stable_id is *not inside its cooldown window*, and the stored restart
count `n` satisfies `n ≥ max_restarts`, the scheduler quarantines the
stable_id and logs a quarantine event carrying `n` instead of restarting;
`n` is the total persisted counter (`get_restart_count` ignores its
`window_seconds` argument); below the threshold it restarts and bumps the
counter to `n + 1`, so in particular with `max_restarts = 1` the first
failure restarts and the second (after the cooldown) quarantines. -/
theorem C3_threshold_quarantines (st : EngineState) (env : SweepEnv) (now : Int)
    (info : ContainerInfo) (reason : String)
    (hcool : ∀ t, lookupKey st.last_restart_times (get_stable_identifier info)
      = some t → st.config.restart.cooldown_seconds ≤ now - t)
    (hcap : 1 ≤ st.config.ui.max_log_entries) :
    (∀ w w' : Int,
        get_restart_count st.config.containers.restart_counts
            (get_stable_identifier info) w
          = get_restart_count st.config.containers.restart_counts
            (get_stable_identifier info) w')
    ∧ (st.config.restart.max_restarts ≤
          get_restart_count st.config.containers.restart_counts
            (get_stable_identifier info) st.config.restart.max_restarts_window_seconds →
        (handle_container_restart st env now info reason).1.quarantined
            = (st_quarantine st (get_stable_identifier info)).quarantined
          ∧ get_stable_identifier info
              ∈ (handle_container_restart st env now info reason).1.quarantined
          ∧ (∃ e, (handle_container_restart st env now info reason).1.event_log.getLast?
                = some e
              ∧ e.event_type = "quarantine"
              ∧ e.restart_count = get_restart_count st.config.containers.restart_counts
                  (get_stable_identifier info) st.config.restart.max_restarts_window_seconds)
          ∧ ∀ a ∈ (handle_container_restart st env now info reason).2,
              ∀ cid, a ≠ Action.restart cid)
    ∧ (get_restart_count st.config.containers.restart_counts
          (get_stable_identifier info) st.config.restart.max_restarts_window_seconds
            < st.config.restart.max_restarts →
        Action.restart info.full_id ∈ (handle_container_restart st env now info reason).2
          ∧ lookupKey (handle_container_restart st env now info reason).1.config.containers.restart_counts
              (get_stable_identifier info)
            = some (get_restart_count st.config.containers.restart_counts
                (get_stable_identifier info) st.config.restart.max_restarts_window_seconds + 1)
          ∧ (handle_container_restart st env now info reason).1.quarantined = st.quarantined
          ∧ (∃ e, (handle_container_restart st env now info reason).1.event_log.getLast?
                = some e
              ∧ e.event_type = "restart"
              ∧ e.restart_count = get_restart_count st.config.containers.restart_counts
                  (get_stable_identifier info) st.config.restart.max_restarts_window_seconds + 1)) := by
  have hcd : (match lookupKey st.last_restart_times (get_stable_identifier info) with
      | some t => decide (now - t < st.config.restart.cooldown_seconds)
      | none => false) = false := by
    cases hl : lookupKey st.last_restart_times (get_stable_identifier info) with
    | none => rfl
    | some t =>
      rw [decide_eq_false_iff_not]
      have := hcool t hl
      omega
  refine ⟨fun w w' => rfl, ?_, ?_⟩
  · intro hth
    unfold handle_container_restart
    simp only [hcd, Bool.false_eq_true, if_false]
    rw [if_pos hth]
    refine ⟨rfl, mem_st_quarantine st _, ⟨_, add_event_getLast _ _ _ hcap, rfl, rfl⟩, ?_⟩
    intro a ha cid
    rcases List.mem_append.mp ha with h | h
    · simp at h
      subst h
      simp
    · split at h <;> simp at h
      subst h
      simp
  · intro hth
    have hth' : ¬ (st.config.restart.max_restarts ≤
        get_restart_count st.config.containers.restart_counts
          (get_stable_identifier info)
          st.config.restart.max_restarts_window_seconds) := by omega
    unfold handle_container_restart
    simp only [hcd, Bool.false_eq_true, if_false]
    rw [if_neg hth']
    by_cases hs : env.restart_success <;>
      by_cases hb : st.config.restart.backoff.enabled <;>
        simp only [hs, hb, Bool.false_eq_true, Bool.true_eq_false, if_true,
          if_false, ite_true, ite_false] <;>
        refine ⟨List.mem_append.mpr (Or.inr (by simp)), ?_,
          rfl, ⟨_, add_event_getLast _ _ _ hcap, rfl, rfl⟩⟩ <;>
        · show lookupKey (record_restart _ _) _ = _
          unfold record_restart
          exact lookupKey_setKey _ _ _

/-- Witness state for C3: counter already at the threshold, no previous
in-memory restart time (so no cooldown applies). -/
def st_thresh : EngineState :=
  { config := { containers :=
      { selected := ["app_api"], restart_counts := [("app_api", 3)] } } }

/-- Witness for C3 (amended): outside the cooldown, at the threshold, the
stable id ends up quarantined. -/
theorem C3_threshold_quarantines_witness :
    "app_api" ∈ (handle_container_restart st_thresh sweep_env0 100 info_app_api
        "Container exited with code 137").1.quarantined := by
  have h := C3_threshold_quarantines st_thresh sweep_env0 100 info_app_api
    "Container exited with code 137"
    (by intro t ht; simp [lookupKey] at ht) (by decide)
  exact (h.2.1 (by decide)).2.1

/-! ## Evaluator reduction helper -/

/-- When the container is neither `starting` nor handled by the exit-status
branch, the evaluator is the health-mode step followed by the external
step. -/
theorem evaluate_not_early (cfg : AutoHealConfig)
    (chc : List (String × HealthCheckConfig)) (env : ProbeEnv)
    (kuma : Option KumaCache) (info : ContainerInfo)
    (h1 : (pyLower info.state_status == "starting") = false)
    (h2 : ((pyLower info.state_status == "exited"
        || pyLower info.state_status == "stopped"
        || pyLower info.state_status == "dead")
      && (cfg.restart.mode == "on-failure" || cfg.restart.mode == "both")) = false) :
    evaluate_container_health cfg chc env kuma info
      = match health_step cfg chc env info with
        | some r => r
        | none => kuma_step cfg kuma (get_stable_identifier info) := by
  unfold evaluate_container_health
  simp only [h1, h2, Bool.false_eq_true, if_false]

/-- When every configured custom probe passes and the native health block is
not `unhealthy`, the health-mode step yields nothing. -/
theorem health_step_none (cfg : AutoHealConfig)
    (chc : List (String × HealthCheckConfig)) (env : ProbeEnv)
    (info : ContainerInfo)
    (h3 : ∀ hc, resolve_custom_check chc info = some hc →
      perform_custom_health_check env hc = true)
    (h4 : ∀ h, info.health = some h → (h.status == "unhealthy") = false) :
    health_step cfg chc env info = none := by
  have hnat : native_health_check info = none := by
    unfold native_health_check
    cases hh : info.health with
    | none => rfl
    | some h => simp [h4 h hh]
  unfold health_step
  by_cases hm : (cfg.restart.mode == "health" || cfg.restart.mode == "both") = true
  · rw [if_pos hm]
    cases hc : resolve_custom_check chc info with
    | none => exact hnat
    | some c => simp [h3 c hc, hnat]
  · rw [if_neg hm]

/-! ## C1: the external-monitor step of the evaluator -/

/-- Configuration with the Uptime-Kuma integration enabled,
`auto_restart_on_down` on, and stable id `web` mapped to monitor `API`. -/
def kuma_cfg1 : AutoHealConfig :=
  { uptime_kuma :=
      { enabled := true
        server_url := "http://kuma:3001"
        api_token := "k"
        auto_restart_on_down := true }
    uptime_kuma_mappings :=
      [{ container_id := "web", monitor_friendly_name := "API" }] }

/-- The same configuration in `health` restart mode. -/
def kuma_cfg1h : AutoHealConfig :=
  { kuma_cfg1 with restart := { mode := "health" } }

/-- Cached external status: `web` is down. -/
def cache1 : KumaCache := { status := [("web", 0)] }

def info_web_starting : ContainerInfo :=
  { id := "bbbbbbbbbbbb", full_id := "bbbbbbbbbbbb2222", name := "web"
    state_status := "starting" }

def info_web_running : ContainerInfo :=
  { id := "bbbbbbbbbbbb", full_id := "bbbbbbbbbbbb2222", name := "web"
    state_status := "running" }

/-- A failing custom HTTP probe for `web`. -/
def chc_web : List (String × HealthCheckConfig) :=
  [("web", { container_id := "web", check_type := "http"
             http_endpoint := some "http://localhost/health" })]

def probe_env_fail : ProbeEnv :=
  { http_ok := fun _ _ _ => false, tcp_ok := fun _ _ => true
    exec_ok := fun _ => true, native_status := none }

/-- C1 counterexample: with the integration enabled, `auto_restart_on_down`
on, the stable id mapped, and the cached status down, the claim predicts
`(true, external-down)` for every monitored container that is not
exited/stopped/dead-with-restart-due — but (a) a container in state
`starting` yields `(false, "Container is starting")`, and (b) a running
container with a failing custom probe yields the custom-probe reason, not the
external-down reason. -/
theorem C1_external_step_counterexample :
    (should_restart_from_uptime_kuma kuma_cfg1 cache1 "web" = true
      ∧ evaluate_container_health kuma_cfg1 [] probe_env0 (some cache1)
          info_web_starting = (false, "Container is starting"))
    ∧ (should_restart_from_uptime_kuma kuma_cfg1h cache1 "web" = true
      ∧ evaluate_container_health kuma_cfg1h chc_web probe_env_fail (some cache1)
          info_web_running = (true, "Custom health check failed (http)")) := by
  refine ⟨⟨by decide, by decide⟩, by decide, by decide⟩

/-- C1 (amended): for every monitored container whose state is not `starting`
and not handled by the exit-status branch, and whose health-mode step
requests no restart (every configured custom probe passes and native health
is not `unhealthy`), the evaluator returns `(true, "Uptime-Kuma monitor
reports DOWN")` exactly when the attached monitor's
`should_restart_from_uptime_kuma` holds — i.e. integration enabled,
`auto_restart_on_down`, stable id mapped, cached status down — and returns
`(false, "")` when it does not; each of the four conditions failing forces
`should_restart_from_uptime_kuma` to be false, so the step contributes no
restart. -/
theorem C1_external_step (cfg : AutoHealConfig)
    (chc : List (String × HealthCheckConfig)) (env : ProbeEnv)
    (cache : KumaCache) (info : ContainerInfo)
    (h1 : (pyLower info.state_status == "starting") = false)
    (h2 : ((pyLower info.state_status == "exited"
        || pyLower info.state_status == "stopped"
        || pyLower info.state_status == "dead")
      && (cfg.restart.mode == "on-failure" || cfg.restart.mode == "both")) = false)
    (h3 : ∀ hc, resolve_custom_check chc info = some hc →
      perform_custom_health_check env hc = true)
    (h4 : ∀ h, info.health = some h → (h.status == "unhealthy") = false) :
    (should_restart_from_uptime_kuma cfg cache (get_stable_identifier info) = true →
        evaluate_container_health cfg chc env (some cache) info
          = (true, "Uptime-Kuma monitor reports DOWN"))
    ∧ (should_restart_from_uptime_kuma cfg cache (get_stable_identifier info) = false →
        evaluate_container_health cfg chc env (some cache) info = (false, ""))
    ∧ (∀ sid cache', cfg.uptime_kuma.enabled = false →
        should_restart_from_uptime_kuma cfg cache' sid = false)
    ∧ (∀ sid cache', cfg.uptime_kuma.auto_restart_on_down = false →
        should_restart_from_uptime_kuma cfg cache' sid = false)
    ∧ (∀ sid cache', (∀ m ∈ cfg.uptime_kuma_mappings, m.container_id ≠ sid) →
        should_restart_from_uptime_kuma cfg cache' sid = false)
    ∧ (∀ sid cache', lookupKey cache'.status sid ≠ some 0 →
        should_restart_from_uptime_kuma cfg cache' sid = false) := by
  have hred := evaluate_not_early cfg chc env (some cache) info h1 h2
  have hstep := health_step_none cfg chc env info h3 h4
  rw [hstep] at hred
  refine ⟨?_, ?_, ?_, ?_, ?_, ?_⟩
  · intro hs
    rw [hred]
    simp [kuma_step, hs]
  · intro hs
    rw [hred]
    simp [kuma_step, hs]
  · intro sid cache' he
    simp [should_restart_from_uptime_kuma, he]
  · intro sid cache' ha
    simp [should_restart_from_uptime_kuma, ha]
  · intro sid cache' hm
    unfold should_restart_from_uptime_kuma
    have : cfg.uptime_kuma_mappings.any (fun m => m.container_id == sid) = false := by
      simp only [List.any_eq_false]
      intro m hmem
      simpa using hm m hmem
    simp [this]
  · intro sid cache' hl
    unfold should_restart_from_uptime_kuma
    have : (lookupKey cache'.status sid == some 0) = false := by
      simpa using hl
    simp [this]

/-- Witness for C1 (amended) at concrete inputs: a running, probe-free `web`
container with the integration enabled and `web` cached down. -/
theorem C1_external_step_witness :
    evaluate_container_health kuma_cfg1 [] probe_env0 (some cache1)
      info_web_running = (true, "Uptime-Kuma monitor reports DOWN") := by
  have h := C1_external_step kuma_cfg1 [] probe_env0 cache1 info_web_running
    (by decide) (by decide)
    (by intro hc hhc; simp [resolve_custom_check, lookupKey] at hhc)
    (by intro h hh; simp [info_web_running] at hh)
  exact h.1 (by decide)

/-! ## C5: custom probe versus native health -/

/-- C5 counterexample: restart mode `health`, a custom HTTP probe for `web`
that *passes*, while the native health block reports `unhealthy` — the
evaluator still consults the native block and returns the native restart
verdict, so the verdict is not decided by the custom probe alone. -/
def info_web_unhealthy : ContainerInfo :=
  { id := "bbbbbbbbbbbb", full_id := "bbbbbbbbbbbb2222", name := "web"
    state_status := "running", health := some { status := "unhealthy" } }

theorem C5_probe_alone_counterexample :
    resolve_custom_check chc_web info_web_unhealthy
        = some ({ container_id := "web", check_type := "http"
                  http_endpoint := some "http://localhost/health" })
      ∧ perform_custom_health_check probe_env0
          ({ container_id := "web", check_type := "http"
             http_endpoint := some "http://localhost/health" }) = true
      ∧ evaluate_container_health kuma_cfg1h chc_web probe_env0 none
          info_web_unhealthy = (true, "Docker health check reports unhealthy") := by
  refine ⟨by decide, by decide, by decide⟩

/-- C5 (amended): with `restart.mode ∈ {health, both}` and a custom probe
resolved for the container (by stable id, then name, then runtime id), a
failing probe yields `(true, "Custom health check failed (<kind>)")`; when
the probe passes the native health block *is still consulted*: native
`unhealthy` then yields the native restart verdict (also for containers with
a custom probe), and with the probe passing and native health not
`unhealthy` the health step requests nothing and evaluation falls through to
the external step. -/
theorem C5_probe_and_native (cfg : AutoHealConfig)
    (chc : List (String × HealthCheckConfig)) (env : ProbeEnv)
    (kuma : Option KumaCache) (info : ContainerInfo) (hc : HealthCheckConfig)
    (h1 : (pyLower info.state_status == "starting") = false)
    (h2 : ((pyLower info.state_status == "exited"
        || pyLower info.state_status == "stopped"
        || pyLower info.state_status == "dead")
      && (cfg.restart.mode == "on-failure" || cfg.restart.mode == "both")) = false)
    (hm : (cfg.restart.mode == "health" || cfg.restart.mode == "both") = true)
    (hres : resolve_custom_check chc info = some hc) :
    (perform_custom_health_check env hc = false →
        evaluate_container_health cfg chc env kuma info
          = (true, "Custom health check failed (" ++ hc.check_type ++ ")"))
    ∧ (perform_custom_health_check env hc = true →
        ∀ h, info.health = some h → h.status = "unhealthy" →
          evaluate_container_health cfg chc env kuma info
            = (true, "Docker health check reports unhealthy"))
    ∧ (perform_custom_health_check env hc = true →
        (∀ h, info.health = some h → (h.status == "unhealthy") = false) →
          evaluate_container_health cfg chc env kuma info
            = kuma_step cfg kuma (get_stable_identifier info)) := by
  have hred := evaluate_not_early cfg chc env kuma info h1 h2
  refine ⟨?_, ?_, ?_⟩
  · intro hp
    rw [hred]
    unfold health_step
    rw [if_pos hm, hres]
    simp [hp]
  · intro hp h hh hu
    rw [hred]
    unfold health_step
    rw [if_pos hm, hres]
    simp [hp, native_health_check, hh, hu]
  · intro hp h4
    have hstep := health_step_none cfg chc env info
      (fun c hcc => by rw [hres] at hcc; cases hcc; exact hp) h4
    rw [hred, hstep]

/-- Witness for C5 (amended): failing probe case at concrete inputs. -/
theorem C5_probe_and_native_witness :
    evaluate_container_health kuma_cfg1h chc_web probe_env_fail none
      info_web_running = (true, "Custom health check failed (http)") := by
  have h := C5_probe_and_native kuma_cfg1h chc_web probe_env_fail none
    info_web_running
    ({ container_id := "web", check_type := "http"
       http_endpoint := some "http://localhost/health" })
    (by decide) (by decide) (by decide) (by decide)
  exact h.1 (by decide)

/-! ## C7: `selected` / `excluded` disjointness -/

/-- The selection-lists invariant: no duplicates in either list, and no
identifier in both. -/
def SelInv (cs : ContainersConfig) : Prop :=
  cs.selected.Nodup ∧ cs.excluded.Nodup
    ∧ ∀ x, x ∈ cs.selected → x ∉ cs.excluded

theorem not_mem_erase_of_not_mem {l : List String} {a b : String}
    (h : a ∉ l) : a ∉ l.erase b :=
  fun hc => h (List.mem_of_mem_erase hc)

theorem not_mem_erase_self {l : List String} (h : l.Nodup) (a : String) :
    a ∉ l.erase a := by
  intro hc
  exact ((h.mem_erase_iff).mp hc).1 rfl

theorem nodup_append_singleton {l : List String} {a : String}
    (hn : l.Nodup) (h : a ∉ l) : (l ++ [a]).Nodup := by
  rw [List.nodup_append]
  refine ⟨hn, List.nodup_singleton a, fun x hx hxa => ?_⟩
  simp only [List.mem_singleton] at hxa
  subst hxa
  exact h hx

theorem mem_cond_append {l : List String} {a x : String} :
    x ∈ (if l.contains a then l else l ++ [a]) → x ∈ l ∨ x = a := by
  by_cases hc : l.contains a
  · rw [if_pos hc]
    exact Or.inl
  · rw [if_neg hc]
    intro hx
    rcases List.mem_append.mp hx with h | h
    · exact Or.inl h
    · simp only [List.mem_singleton] at h
      exact Or.inr h

theorem nodup_cond_append {l : List String} {a : String} (hn : l.Nodup) :
    (if l.contains a then l else l ++ [a]).Nodup := by
  by_cases hc : l.contains a
  · rwa [if_pos hc]
  · rw [if_neg hc]
    exact nodup_append_singleton hn (by simpa using hc)

theorem sel_inv_step (cs : ContainersConfig) (op : SelOp) (h : SelInv cs) :
    SelInv (apply_sel_op cs op) := by
  obtain ⟨hns, hne, hd⟩ := h
  cases op with
  | selectOne r cid =>
    cases r with
    | some info =>
      refine ⟨nodup_cond_append hns, (((hne.erase _).erase _).erase _), ?_⟩
      intro x hx
      rcases mem_cond_append hx with hx | hx
      · exact not_mem_erase_of_not_mem (not_mem_erase_of_not_mem
          (not_mem_erase_of_not_mem (hd x hx)))
      · subst hx
        exact not_mem_erase_of_not_mem (not_mem_erase_of_not_mem
          (not_mem_erase_self hne _))
    | none =>
      refine ⟨nodup_cond_append hns, hne.erase _, ?_⟩
      intro x hx
      rcases mem_cond_append hx with hx | hx
      · exact not_mem_erase_of_not_mem (hd x hx)
      · subst hx
        exact not_mem_erase_self hne _
  | excludeOne r cid =>
    cases r with
    | some info =>
      refine ⟨(((hns.erase _).erase _).erase _), nodup_cond_append hne, ?_⟩
      intro x hx hx2
      rcases mem_cond_append hx2 with hx2 | hx2
      · have hxs : x ∈ cs.selected := List.mem_of_mem_erase
          (List.mem_of_mem_erase (List.mem_of_mem_erase hx))
        exact hd x hxs hx2
      · subst hx2
        exact not_mem_erase_of_not_mem (not_mem_erase_of_not_mem
          (not_mem_erase_self hns _)) hx
    | none =>
      refine ⟨hns.erase _, nodup_cond_append hne, ?_⟩
      intro x hx hx2
      rcases mem_cond_append hx2 with hx2 | hx2
      · exact hd x (List.mem_of_mem_erase hx) hx2
      · subst hx2
        exact not_mem_erase_self hns _ hx
  | enroll info en cid =>
    simp only [apply_sel_op]
    by_cases hl : (lookupKey info.labels "autoheal" == some "true") = true
    · rw [if_pos hl]
      by_cases hs : (cs.selected.contains (inline_stable_id info.labels en)
          || cs.selected.contains en || cs.selected.contains cid) = true
      · rw [if_pos hs]
        exact ⟨hns, hne, hd⟩
      · rw [if_neg hs]
        by_cases he : (cs.excluded.contains (inline_stable_id info.labels en)
            || cs.excluded.contains en || cs.excluded.contains cid) = true
        · rw [if_pos he]
          exact ⟨hns, hne, hd⟩
        · rw [if_neg he]
          have hnotsel : inline_stable_id info.labels en ∉ cs.selected := by
            simp only [Bool.or_eq_true, not_or] at hs
            simpa using hs.1.1
          have hnotexc : inline_stable_id info.labels en ∉ cs.excluded := by
            simp only [Bool.or_eq_true, not_or] at he
            simpa using he.1.1
          refine ⟨nodup_append_singleton hns hnotsel, hne, ?_⟩
          intro x hx
          rcases List.mem_append.mp hx with hx | hx
          · exact hd x hx
          · simp only [List.mem_singleton] at hx
            subst hx
            exact hnotexc
    · rw [if_neg hl]
      exact ⟨hns, hne, hd⟩

theorem sel_inv_ops (ops : List SelOp) :
    ∀ cs : ContainersConfig, SelInv cs → SelInv (apply_sel_ops cs ops) := by
  induction ops with
  | nil => intro cs h; exact h
  | cons op ops ih =>
    intro cs h
    exact ih (apply_sel_op cs op) (sel_inv_step cs op h)

/-- C7: after any sequence of select/exclude operations (the admin selection
endpoint in either direction, with or without Docker resolution, and the
auto-enrollment paths) starting from the default empty configuration, no
identifier is a member of both the `selected` and `excluded` lists; moreover
an enrollment whose stable id is currently excluded leaves the configuration
unchanged (auto-enrollment never adds an excluded stable_id). -/
theorem C7_selected_excluded_disjoint :
    (∀ ops : List SelOp, ∀ x : String,
        ¬(x ∈ (apply_sel_ops {} ops).selected
          ∧ x ∈ (apply_sel_ops {} ops).excluded))
    ∧ (∀ (cs : ContainersConfig) (info : ContainerInfo) (en cid : String),
        inline_stable_id info.labels en ∈ cs.excluded →
        apply_sel_op cs (SelOp.enroll info en cid) = cs) := by
  constructor
  · intro ops x hx
    have h0 : SelInv ({} : ContainersConfig) := by
      refine ⟨List.nodup_nil, List.nodup_nil, by simp⟩
    exact (sel_inv_ops ops {} h0).2.2 x hx.1 hx.2
  · intro cs info en cid hmem
    simp only [apply_sel_op]
    by_cases hl : (lookupKey info.labels "autoheal" == some "true") = true
    · rw [if_pos hl]
      by_cases hs : (cs.selected.contains (inline_stable_id info.labels en)
          || cs.selected.contains en || cs.selected.contains cid) = true
      · rw [if_pos hs]
      · rw [if_neg hs]
        have he : (cs.excluded.contains (inline_stable_id info.labels en)
            || cs.excluded.contains en || cs.excluded.contains cid) = true := by
          simp only [Bool.or_eq_true]
          exact Or.inl (Or.inl (by simpa using hmem))
        rw [if_pos he]
    · rw [if_neg hl]

/-- Witness for C7's conditional part: enrolling an excluded stable id is a
no-op at a concrete configuration. -/
theorem C7_selected_excluded_disjoint_witness :
    apply_sel_op { excluded := ["app_api"] }
        (SelOp.enroll info_app_api "app-api-1" "aaaaaaaaaaaa1111")
      = { excluded := ["app_api"] } := by
  exact C7_selected_excluded_disjoint.2 { excluded := ["app_api"] }
    info_app_api "app-api-1" "aaaaaaaaaaaa1111" (by decide)

/-! ## C9: configuration export / import (`export_config` / `import_config`)

`export_config` runs `model_dump`, attaches the custom health-check dict and
serializes with `json.dumps`; `import_config` runs `json.loads`, pops
`custom_health_checks`, rebuilds `AutoHealConfig(**dict)` (pydantic: missing
field → declared default, present field → type/constraint validation) and
rebuilds each `HealthCheckConfig(**hc)`.  The JSON text is embedded as its
parse tree (`json.loads (json.dumps tree) = tree` for the JSON-safe trees
`model_dump` produces; Python floats appear as rationals). -/

inductive JVal where
  | null
  | bool (b : Bool)
  | int (n : Int)
  | num (q : ℚ)
  | str (s : String)
  | arr (xs : List JVal)
  | obj (fields : List (String × JVal))

/-! ### Encoding (`model_dump` composed with `json.dumps`) -/

def encodeStrList (l : List String) : JVal := JVal.arr (l.map JVal.str)

def encodeOptStr : Option String → JVal
  | none => JVal.null
  | some s => JVal.str s

def encodeOptInt : Option Int → JVal
  | none => JVal.null
  | some n => JVal.int n

def encodeOptStrList : Option (List String) → JVal
  | none => JVal.null
  | some l => encodeStrList l

def encodeCounts (d : List (String × Int)) : JVal :=
  JVal.obj (d.map fun p => (p.1, JVal.int p.2))

def encodeLabelMap (m : List (String × String)) : JVal :=
  JVal.obj (m.map fun p => (p.1, JVal.str p.2))

def encodeLabelFilters (l : List (List (String × String))) : JVal :=
  JVal.arr (l.map encodeLabelMap)

def MonitorConfig.toJVal (m : MonitorConfig) : JVal :=
  JVal.obj
    [("interval_seconds", JVal.int m.interval_seconds),
     ("label_key", JVal.str m.label_key),
     ("label_value", JVal.str m.label_value),
     ("include_all", JVal.bool m.include_all)]

def ContainersConfig.toJVal (c : ContainersConfig) : JVal :=
  JVal.obj
    [("selected", encodeStrList c.selected),
     ("excluded", encodeStrList c.excluded),
     ("restart_counts", encodeCounts c.restart_counts)]

def BackoffConfig.toJVal (b : BackoffConfig) : JVal :=
  JVal.obj
    [("enabled", JVal.bool b.enabled),
     ("initial_seconds", JVal.int b.initial_seconds),
     ("multiplier", JVal.num b.multiplier)]

def RestartConfig.toJVal (r : RestartConfig) : JVal :=
  JVal.obj
    [("mode", JVal.str r.mode),
     ("cooldown_seconds", JVal.int r.cooldown_seconds),
     ("max_restarts", JVal.int r.max_restarts),
     ("max_restarts_window_seconds", JVal.int r.max_restarts_window_seconds),
     ("backoff", r.backoff.toJVal),
     ("respect_manual_stop", JVal.bool r.respect_manual_stop)]

def FiltersConfig.toJVal (f : FiltersConfig) : JVal :=
  JVal.obj
    [("whitelist_names", encodeStrList f.whitelist_names),
     ("blacklist_names", encodeStrList f.blacklist_names),
     ("whitelist_labels", encodeLabelFilters f.whitelist_labels),
     ("blacklist_labels", encodeLabelFilters f.blacklist_labels)]

def UIConfig.toJVal (u : UIConfig) : JVal :=
  JVal.obj
    [("enable", JVal.bool u.enable),
     ("listen_address", JVal.str u.listen_address),
     ("listen_port", JVal.int u.listen_port),
     ("allow_export_json", JVal.bool u.allow_export_json),
     ("allow_import_json", JVal.bool u.allow_import_json),
     ("max_log_entries", JVal.int u.max_log_entries)]

def AlertsConfig.toJVal (a : AlertsConfig) : JVal :=
  JVal.obj
    [("enabled", JVal.bool a.enabled),
     ("webhook", encodeOptStr a.webhook),
     ("notify_on_quarantine", JVal.bool a.notify_on_quarantine)]

def ObservabilityConfig.toJVal (o : ObservabilityConfig) : JVal :=
  JVal.obj
    [("prometheus_enabled", JVal.bool o.prometheus_enabled),
     ("metrics_port", JVal.int o.metrics_port),
     ("log_format", JVal.str o.log_format),
     ("log_level", JVal.str o.log_level)]

def UptimeKumaConfig.toJVal (u : UptimeKumaConfig) : JVal :=
  JVal.obj
    [("enabled", JVal.bool u.enabled),
     ("server_url", JVal.str u.server_url),
     ("username", JVal.str u.username),
     ("api_token", JVal.str u.api_token),
     ("auto_restart_on_down", JVal.bool u.auto_restart_on_down)]

def UptimeKumaMapping.toJVal (m : UptimeKumaMapping) : JVal :=
  JVal.obj
    [("container_id", JVal.str m.container_id),
     ("monitor_friendly_name", JVal.str m.monitor_friendly_name),
     ("auto_mapped", JVal.bool m.auto_mapped)]

def HealthCheckConfig.toJVal (h : HealthCheckConfig) : JVal :=
  JVal.obj
    [("container_id", JVal.str h.container_id),
     ("check_type", JVal.str h.check_type),
     ("interval_seconds", JVal.int h.interval_seconds),
     ("timeout_seconds", JVal.int h.timeout_seconds),
     ("retries", JVal.int h.retries),
     ("http_endpoint", encodeOptStr h.http_endpoint),
     ("http_expected_status", encodeOptInt h.http_expected_status),
     ("tcp_port", encodeOptInt h.tcp_port),
     ("exec_command", encodeOptStrList h.exec_command)]

def AutoHealConfig.toJVal (c : AutoHealConfig) : List (String × JVal) :=
  [("monitor", c.monitor.toJVal),
   ("containers", c.containers.toJVal),
   ("restart", c.restart.toJVal),
   ("filters", c.filters.toJVal),
   ("ui", c.ui.toJVal),
   ("alerts", c.alerts.toJVal),
   ("observability", c.observability.toJVal),
   ("uptime_kuma", c.uptime_kuma.toJVal),
   ("uptime_kuma_mappings", JVal.arr (c.uptime_kuma_mappings.map UptimeKumaMapping.toJVal))]

/-- The in-memory pair `ConfigManager` exports: the configuration document
plus the custom health-check dict. -/
structure ConfigDoc where
  config : AutoHealConfig := {}
  custom_health_checks : List (String × HealthCheckConfig) := []
deriving DecidableEq, Repr

/-- `ConfigManager.export_config`: `model_dump`, plus the
`custom_health_checks` key appended, serialized. -/
def export_config (d : ConfigDoc) : JVal :=
  JVal.obj (d.config.toJVal
    ++ [("custom_health_checks",
        JVal.obj (d.custom_health_checks.map fun p => (p.1, p.2.toJVal)))])

/-! ### Decoding (`json.loads` composed with pydantic model construction)

pydantic semantics for `Model(**dict)`: a missing key takes the field's
declared default; a present key is validated against the field's type and
`Field` constraints (`ge` / `le`), rejecting the document on failure.  Extra
keys are ignored.  (Lax cross-type coercions pydantic would additionally
accept on non-canonical inputs — e.g. numeric strings — are not needed for
documents produced by `model_dump` and are not modelled.) -/

def decStr : JVal → Option String
  | JVal.str s => some s
  | _ => none

def decBool : JVal → Option Bool
  | JVal.bool b => some b
  | _ => none

def decInt : JVal → Option Int
  | JVal.int n => some n
  | _ => none

/-- An `int` field with a `ge` bound. -/
def decIntGe (lo : Int) : JVal → Option Int
  | JVal.int n => if lo ≤ n then some n else none
  | _ => none

/-- An `int` field with `ge` and `le` bounds. -/
def decIntRange (lo hi : Int) : JVal → Option Int
  | JVal.int n => if lo ≤ n ∧ n ≤ hi then some n else none
  | _ => none

/-- A `float` field with a `ge` bound (an integer literal is coerced). -/
def decNumGe (lo : ℚ) : JVal → Option ℚ
  | JVal.num q => if lo ≤ q then some q else none
  | JVal.int n => if lo ≤ (n : ℚ) then some (n : ℚ) else none
  | _ => none

def decOptStr : JVal → Option (Option String)
  | JVal.null => some none
  | JVal.str s => some (some s)
  | _ => none

def decOptInt : JVal → Option (Option Int)
  | JVal.null => some none
  | JVal.int n => some (some n)
  | _ => none

def decList {α : Type} (dec : JVal → Option α) : List JVal → Option (List α)
  | [] => some []
  | x :: xs =>
    match dec x, decList dec xs with
    | some a, some as => some (a :: as)
    | _, _ => none

def decPairs {α : Type} (dec : JVal → Option α) :
    List (String × JVal) → Option (List (String × α))
  | [] => some []
  | p :: ps =>
    match dec p.2, decPairs dec ps with
    | some a, some as => some ((p.1, a) :: as)
    | _, _ => none

def decStrList : JVal → Option (List String)
  | JVal.arr xs => decList decStr xs
  | _ => none

def decOptStrList : JVal → Option (Option (List String))
  | JVal.null => some none
  | JVal.arr xs => (decList decStr xs).map some
  | _ => none

def decCounts : JVal → Option (List (String × Int))
  | JVal.obj fs => decPairs decInt fs
  | _ => none

def decLabelMap : JVal → Option (List (String × String))
  | JVal.obj fs => decPairs decStr fs
  | _ => none

def decLabelFilters : JVal → Option (List (List (String × String)))
  | JVal.arr xs => decList decLabelMap xs
  | _ => none

/-- One pydantic field: declared default when the key is missing, decoder
(type + constraints) when present. -/
def decField {α : Type} (fs : List (String × JVal)) (k : String) (dflt : α)
    (dec : JVal → Option α) : Option α :=
  match lookupKey fs k with
  | none => some dflt
  | some v => dec v

/-- One required pydantic field (no default). -/
def decReqField {α : Type} (fs : List (String × JVal)) (k : String)
    (dec : JVal → Option α) : Option α :=
  (lookupKey fs k).bind dec

def decMonitorConfig : JVal → Option MonitorConfig
  | JVal.obj fs => do
    let interval ← decField fs "interval_seconds" 30 (decIntGe 1)
    let lk ← decField fs "label_key" "autoheal" decStr
    let lv ← decField fs "label_value" "true" decStr
    let ia ← decField fs "include_all" false decBool
    some { interval_seconds := interval, label_key := lk, label_value := lv
           include_all := ia }
  | _ => none

def decContainersConfig : JVal → Option ContainersConfig
  | JVal.obj fs => do
    let sel ← decField fs "selected" [] decStrList
    let exc ← decField fs "excluded" [] decStrList
    let rc ← decField fs "restart_counts" [] decCounts
    some { selected := sel, excluded := exc, restart_counts := rc }
  | _ => none

def decBackoffConfig : JVal → Option BackoffConfig
  | JVal.obj fs => do
    let en ← decField fs "enabled" true decBool
    let ini ← decField fs "initial_seconds" 10 (decIntGe 1)
    let mul ← decField fs "multiplier" 2 (decNumGe 1)
    some { enabled := en, initial_seconds := ini, multiplier := mul }
  | _ => none

def decRestartConfig : JVal → Option RestartConfig
  | JVal.obj fs => do
    let mo ← decField fs "mode" "on-failure" decStr
    let cd ← decField fs "cooldown_seconds" 60 (decIntGe 0)
    let mr ← decField fs "max_restarts" 3 (decIntGe 1)
    let wd ← decField fs "max_restarts_window_seconds" 600 (decIntGe 1)
    let bo ← decField fs "backoff" {} decBackoffConfig
    let rms ← decField fs "respect_manual_stop" true decBool
    some { mode := mo, cooldown_seconds := cd, max_restarts := mr
           max_restarts_window_seconds := wd, backoff := bo
           respect_manual_stop := rms }
  | _ => none

def decFiltersConfig : JVal → Option FiltersConfig
  | JVal.obj fs => do
    let wn ← decField fs "whitelist_names" [] decStrList
    let bn ← decField fs "blacklist_names" [] decStrList
    let wl ← decField fs "whitelist_labels" [] decLabelFilters
    let bl ← decField fs "blacklist_labels" [] decLabelFilters
    some { whitelist_names := wn, blacklist_names := bn
           whitelist_labels := wl, blacklist_labels := bl }
  | _ => none

def decUIConfig : JVal → Option UIConfig
  | JVal.obj fs => do
    let en ← decField fs "enable" true decBool
    let la ← decField fs "listen_address" "0.0.0.0" decStr
    let lp ← decField fs "listen_port" 3131 (decIntRange 1 65535)
    let ae ← decField fs "allow_export_json" true decBool
    let ai ← decField fs "allow_import_json" true decBool
    let ml ← decField fs "max_log_entries" 50 (decIntGe 1)
    some { enable := en, listen_address := la, listen_port := lp
           allow_export_json := ae, allow_import_json := ai
           max_log_entries := ml }
  | _ => none

def decAlertsConfig : JVal → Option AlertsConfig
  | JVal.obj fs => do
    let en ← decField fs "enabled" true decBool
    let wh ← decField fs "webhook" none decOptStr
    let nq ← decField fs "notify_on_quarantine" true decBool
    some { enabled := en, webhook := wh, notify_on_quarantine := nq }
  | _ => none

def decObservabilityConfig : JVal → Option ObservabilityConfig
  | JVal.obj fs => do
    let pe ← decField fs "prometheus_enabled" true decBool
    let mp ← decField fs "metrics_port" 9090 (decIntRange 1 65535)
    let lf ← decField fs "log_format" "json" decStr
    let ll ← decField fs "log_level" "INFO" decStr
    some { prometheus_enabled := pe, metrics_port := mp, log_format := lf
           log_level := ll }
  | _ => none

def decUptimeKumaConfig : JVal → Option UptimeKumaConfig
  | JVal.obj fs => do
    let en ← decField fs "enabled" false decBool
    let su ← decField fs "server_url" "" decStr
    let un ← decField fs "username" "" decStr
    let at' ← decField fs "api_token" "" decStr
    let ar ← decField fs "auto_restart_on_down" true decBool
    some { enabled := en, server_url := su, username := un, api_token := at'
           auto_restart_on_down := ar }
  | _ => none

def decUptimeKumaMapping : JVal → Option UptimeKumaMapping
  | JVal.obj fs => do
    let ci ← decReqField fs "container_id" decStr
    let mf ← decReqField fs "monitor_friendly_name" decStr
    let am ← decField fs "auto_mapped" false decBool
    some { container_id := ci, monitor_friendly_name := mf, auto_mapped := am }
  | _ => none

def decMappings : JVal → Option (List UptimeKumaMapping)
  | JVal.arr xs => decList decUptimeKumaMapping xs
  | _ => none

def decHealthCheckConfig : JVal → Option HealthCheckConfig
  | JVal.obj fs => do
    let ci ← decReqField fs "container_id" decStr
    let ct ← decReqField fs "check_type" decStr
    let iv ← decField fs "interval_seconds" 30 (decIntGe 1)
    let ts ← decField fs "timeout_seconds" 10 (decIntGe 1)
    let rt ← decField fs "retries" 3 (decIntGe 1)
    let he ← decField fs "http_endpoint" none decOptStr
    let hs ← decField fs "http_expected_status" (some 200) decOptInt
    let tp ← decField fs "tcp_port" none decOptInt
    let ec ← decField fs "exec_command" none decOptStrList
    some { container_id := ci, check_type := ct, interval_seconds := iv
           timeout_seconds := ts, retries := rt, http_endpoint := he
           http_expected_status := hs, tcp_port := tp, exec_command := ec }
  | _ => none

/-- `AutoHealConfig(**config_dict)`. -/
def decAutoHealConfig (fs : List (String × JVal)) : Option AutoHealConfig := do
  let mo ← decField fs "monitor" {} decMonitorConfig
  let co ← decField fs "containers" {} decContainersConfig
  let re ← decField fs "restart" {} decRestartConfig
  let fi ← decField fs "filters" {} decFiltersConfig
  let ui ← decField fs "ui" {} decUIConfig
  let al ← decField fs "alerts" {} decAlertsConfig
  let ob ← decField fs "observability" {} decObservabilityConfig
  let uk ← decField fs "uptime_kuma" {} decUptimeKumaConfig
  let um ← decField fs "uptime_kuma_mappings" [] decMappings
  some { monitor := mo, containers := co, restart := re, filters := fi
         ui := ui, alerts := al, observability := ob, uptime_kuma := uk
         uptime_kuma_mappings := um }

/-- `ConfigManager.import_config`: parse, pop `custom_health_checks`
(default `{}`), rebuild the config model and every health-check model. -/
def import_config (j : JVal) : Option ConfigDoc :=
  match j with
  | JVal.obj fs => do
    let chc ←
      match lookupKey fs "custom_health_checks" with
      | none => some []
      | some (JVal.obj ps) => decPairs decHealthCheckConfig ps
      | some _ => none
    let cfg ← decAutoHealConfig (delKey fs "custom_health_checks")
    some { config := cfg, custom_health_checks := chc }
  | _ => none

/-! ### pydantic field constraints as validity predicates

An in-memory configuration always satisfies these: every constructor and
every import path goes through pydantic validation with the same bounds. -/

def MonitorConfig.Valid (m : MonitorConfig) : Prop := 1 ≤ m.interval_seconds

def BackoffConfig.Valid (b : BackoffConfig) : Prop :=
  1 ≤ b.initial_seconds ∧ 1 ≤ b.multiplier

def RestartConfig.Valid (r : RestartConfig) : Prop :=
  0 ≤ r.cooldown_seconds ∧ 1 ≤ r.max_restarts
    ∧ 1 ≤ r.max_restarts_window_seconds ∧ r.backoff.Valid

def UIConfig.Valid (u : UIConfig) : Prop :=
  1 ≤ u.listen_port ∧ u.listen_port ≤ 65535 ∧ 1 ≤ u.max_log_entries

def ObservabilityConfig.Valid (o : ObservabilityConfig) : Prop :=
  1 ≤ o.metrics_port ∧ o.metrics_port ≤ 65535

def HealthCheckConfig.Valid (h : HealthCheckConfig) : Prop :=
  1 ≤ h.interval_seconds ∧ 1 ≤ h.timeout_seconds ∧ 1 ≤ h.retries

def AutoHealConfig.Valid (c : AutoHealConfig) : Prop :=
  c.monitor.Valid ∧ c.restart.Valid ∧ c.ui.Valid ∧ c.observability.Valid

def ConfigDoc.Valid (d : ConfigDoc) : Prop :=
  d.config.Valid ∧ ∀ p ∈ d.custom_health_checks, HealthCheckConfig.Valid p.2

/-! ### Round-trip lemmas -/

theorem decList_map_enc {α : Type} (dec : JVal → Option α) (enc : α → JVal)
    (l : List α) (h : ∀ a ∈ l, dec (enc a) = some a) :
    decList dec (l.map enc) = some l := by
  induction l with
  | nil => rfl
  | cons a l ih =>
    simp only [List.map_cons, decList, h a (by simp),
      ih (fun x hx => h x (by simp [hx]))]

theorem decPairs_map_enc {α : Type} (dec : JVal → Option α) (enc : α → JVal)
    (ps : List (String × α)) (h : ∀ p ∈ ps, dec (enc p.2) = some p.2) :
    decPairs dec (ps.map fun p => (p.1, enc p.2)) = some ps := by
  induction ps with
  | nil => rfl
  | cons p ps ih =>
    simp only [List.map_cons, decPairs, h p (by simp),
      ih (fun x hx => h x (by simp [hx]))]

theorem decStrList_enc (l : List String) :
    decStrList (encodeStrList l) = some l := by
  unfold encodeStrList decStrList
  exact decList_map_enc _ _ l (fun a _ => rfl)

theorem decCounts_enc (d : List (String × Int)) :
    decCounts (encodeCounts d) = some d := by
  unfold encodeCounts decCounts
  exact decPairs_map_enc _ _ d (fun p _ => rfl)

theorem decLabelMap_enc (m : List (String × String)) :
    decLabelMap (encodeLabelMap m) = some m := by
  unfold encodeLabelMap decLabelMap
  exact decPairs_map_enc _ _ m (fun p _ => rfl)

theorem decLabelFilters_enc (l : List (List (String × String))) :
    decLabelFilters (encodeLabelFilters l) = some l := by
  unfold encodeLabelFilters decLabelFilters
  exact decList_map_enc _ _ l (fun a _ => decLabelMap_enc a)

theorem decOptStr_enc (o : Option String) :
    decOptStr (encodeOptStr o) = some o := by
  cases o <;> rfl

theorem decOptInt_enc (o : Option Int) :
    decOptInt (encodeOptInt o) = some o := by
  cases o <;> rfl

theorem decOptStrList_enc (o : Option (List String)) :
    decOptStrList (encodeOptStrList o) = some o := by
  cases o with
  | none => rfl
  | some l =>
    show decOptStrList (encodeStrList l) = some (some l)
    unfold encodeStrList
    simp only [decOptStrList]
    rw [decList_map_enc decStr JVal.str l (fun a _ => rfl)]
    rfl

theorem decMonitorConfig_enc (m : MonitorConfig) (h : m.Valid) :
    decMonitorConfig m.toJVal = some m := by
  have h' : 1 ≤ m.interval_seconds := h
  simp [decMonitorConfig, MonitorConfig.toJVal, decField, lookupKey,
    decIntGe, decStr, decBool, h']

theorem decContainersConfig_enc (c : ContainersConfig) :
    decContainersConfig c.toJVal = some c := by
  simp [decContainersConfig, ContainersConfig.toJVal, decField, lookupKey,
    decStrList_enc, decCounts_enc]

theorem decBackoffConfig_enc (b : BackoffConfig) (h : b.Valid) :
    decBackoffConfig b.toJVal = some b := by
  obtain ⟨h1, h2⟩ := h
  simp [decBackoffConfig, BackoffConfig.toJVal, decField, lookupKey,
    decBool, decIntGe, decNumGe, h1, h2]

theorem decRestartConfig_enc (r : RestartConfig) (h : r.Valid) :
    decRestartConfig r.toJVal = some r := by
  obtain ⟨h1, h2, h3, h4⟩ := h
  simp [decRestartConfig, RestartConfig.toJVal, decField, lookupKey,
    decStr, decBool, decIntGe, decBackoffConfig_enc r.backoff h4, h1, h2, h3]

theorem decFiltersConfig_enc (f : FiltersConfig) :
    decFiltersConfig f.toJVal = some f := by
  simp [decFiltersConfig, FiltersConfig.toJVal, decField, lookupKey,
    decStrList_enc, decLabelFilters_enc]

theorem decUIConfig_enc (u : UIConfig) (h : u.Valid) :
    decUIConfig u.toJVal = some u := by
  obtain ⟨h1, h2, h3⟩ := h
  simp [decUIConfig, UIConfig.toJVal, decField, lookupKey,
    decBool, decStr, decIntRange, decIntGe, h1, h2, h3]

theorem decAlertsConfig_enc (a : AlertsConfig) :
    decAlertsConfig a.toJVal = some a := by
  simp [decAlertsConfig, AlertsConfig.toJVal, decField, lookupKey,
    decBool, decOptStr_enc]

theorem decObservabilityConfig_enc (o : ObservabilityConfig) (h : o.Valid) :
    decObservabilityConfig o.toJVal = some o := by
  obtain ⟨h1, h2⟩ := h
  simp [decObservabilityConfig, ObservabilityConfig.toJVal, decField,
    lookupKey, decBool, decStr, decIntRange, h1, h2]

theorem decUptimeKumaConfig_enc (u : UptimeKumaConfig) :
    decUptimeKumaConfig u.toJVal = some u := by
  simp [decUptimeKumaConfig, UptimeKumaConfig.toJVal, decField, lookupKey,
    decBool, decStr]

theorem decUptimeKumaMapping_enc (m : UptimeKumaMapping) :
    decUptimeKumaMapping m.toJVal = some m := by
  simp [decUptimeKumaMapping, UptimeKumaMapping.toJVal, decField,
    decReqField, lookupKey, decBool, decStr]

theorem decMappings_enc (l : List UptimeKumaMapping) :
    decMappings (JVal.arr (l.map UptimeKumaMapping.toJVal)) = some l := by
  unfold decMappings
  exact decList_map_enc _ _ l (fun a _ => decUptimeKumaMapping_enc a)

theorem decHealthCheckConfig_enc (h : HealthCheckConfig) (hv : h.Valid) :
    decHealthCheckConfig h.toJVal = some h := by
  obtain ⟨h1, h2, h3⟩ := hv
  simp [decHealthCheckConfig, HealthCheckConfig.toJVal, decField,
    decReqField, lookupKey, decStr, decIntGe, decOptStr_enc, decOptInt_enc,
    decOptStrList_enc, h1, h2, h3]

theorem decAutoHealConfig_enc (c : AutoHealConfig) (h : c.Valid) :
    decAutoHealConfig c.toJVal = some c := by
  obtain ⟨hm, hr, hu, ho⟩ := h
  simp [decAutoHealConfig, AutoHealConfig.toJVal, decField, lookupKey,
    decMonitorConfig_enc c.monitor hm, decContainersConfig_enc,
    decRestartConfig_enc c.restart hr, decFiltersConfig_enc,
    decUIConfig_enc c.ui hu, decAlertsConfig_enc,
    decObservabilityConfig_enc c.observability ho, decUptimeKumaConfig_enc,
    decMappings_enc]

/-- C9: for every valid configuration state (custom health checks included),
importing the exported JSON document reconstructs exactly the same in-memory
state, and hence re-exporting yields a document equal to the exported one
under deep comparison. -/
theorem C9_export_import_roundtrip (d : ConfigDoc) (h : d.Valid) :
    import_config (export_config d) = some d
      ∧ (import_config (export_config d)).map export_config
          = some (export_config d) := by
  obtain ⟨hc, hchc⟩ := h
  have hmain : import_config (export_config d) = some d := by
    unfold export_config
    simp only [import_config]
    have hlook : lookupKey (d.config.toJVal
        ++ [("custom_health_checks",
            JVal.obj (d.custom_health_checks.map fun p => (p.1, p.2.toJVal)))])
        "custom_health_checks"
        = some (JVal.obj (d.custom_health_checks.map fun p => (p.1, p.2.toJVal))) := by
      simp [AutoHealConfig.toJVal, lookupKey]
    have hdel : delKey (d.config.toJVal
        ++ [("custom_health_checks",
            JVal.obj (d.custom_health_checks.map fun p => (p.1, p.2.toJVal)))])
        "custom_health_checks" = d.config.toJVal := by
      simp [AutoHealConfig.toJVal, delKey]
    have hpairs : decPairs decHealthCheckConfig
        (d.custom_health_checks.map fun p => (p.1, p.2.toJVal))
        = some d.custom_health_checks :=
      decPairs_map_enc _ _ _ (fun p hp => decHealthCheckConfig_enc p.2 (hchc p hp))
    rw [hlook]
    simp [hdel, hpairs, decAutoHealConfig_enc d.config hc]
  exact ⟨hmain, by rw [hmain]; rfl⟩

/-- Witness for C9 at the default configuration state with one custom health
check. -/
def doc0 : ConfigDoc :=
  { config := {}
    custom_health_checks :=
      [("web", { container_id := "web", check_type := "http"
                 http_endpoint := some "http://localhost/health" })] }

theorem C9_export_import_roundtrip_witness :
    import_config (export_config doc0) = some doc0 := by
  have hval : ConfigDoc.Valid doc0 := by
    constructor
    · refine ⟨?_, ⟨?_, ?_, ?_, ?_, ?_⟩, ⟨?_, ?_, ?_⟩, ?_, ?_⟩ <;>
        norm_num [doc0, MonitorConfig.Valid, RestartConfig.Valid,
          BackoffConfig.Valid, UIConfig.Valid, ObservabilityConfig.Valid]
    · intro p hp
      simp only [doc0, List.mem_singleton] at hp
      subst hp
      refine ⟨?_, ?_, ?_⟩ <;> norm_num
  exact (C9_export_import_roundtrip doc0 hval).1

end Autoheal
